import Mathlib

/-
  Verification of the grok-art-proxy gateway against its specification.

  Shallow embedding of the TypeScript sources:
    - src/grok/models.ts    (model registry, canonicalization, wildcard matching, catalog sync)
    - src/grok/chat.ts      (chat stream translator, thinking state machine, error classification)
    - src/grok/imagine.ts   (image-collection session and pagination driver)
    - src/repo/tokens.ts    (credential pool import/merge)
    - src/routes/v1/chat.ts (retry loop around streamChat)

  JavaScript string primitives are embedded as executable functions on
  Lean Strings operating on their character lists, so that every claim is
  decidable on concrete inputs.
-/

namespace GrokProxy

/-- Embeds JS `String.prototype.toLowerCase` (ASCII-relevant part): lower-case every character. -/
def jsToLower (s : String) : String :=
  String.mk (s.data.map Char.toLower)

/-- Whitespace test used by JS `String.prototype.trim`. -/
def jsIsWhitespace (c : Char) : Bool :=
  c == ' ' || c == '\t' || c == '\n' || c == '\r'

/-- Embeds JS `String.prototype.trim`: drop whitespace from both ends. -/
def jsTrim (s : String) : String :=
  String.mk (((s.data.dropWhile jsIsWhitespace).reverse.dropWhile jsIsWhitespace).reverse)

/-- Embeds JS `String.prototype.startsWith`. -/
def jsStartsWith (s p : String) : Bool :=
  s.data.take p.data.length == p.data

/-- Embeds JS `String.prototype.endsWith`. -/
def jsEndsWith (s p : String) : Bool :=
  s.data.reverse.take p.data.length == p.data.reverse

/-- Substring search on character lists: does `p` occur inside `s`? -/
def listContains (s p : List Char) : Bool :=
  match s with
  | [] => p.isEmpty
  | _ :: t => s.take p.length == p || listContains t p

/-- Embeds JS `String.prototype.includes` (empty needle always found). -/
def jsIncludes (s sub : String) : Bool :=
  listContains s.data sub.data

/-- Embeds JS `Array.prototype.join` / template concatenation with a separator. -/
def jsJoin (sep : String) (l : List String) : String :=
  String.intercalate sep l

/-- Embeds JS `String.prototype.slice(0, n)` (take the first n UTF-16 units; ASCII-safe). -/
def jsTake (s : String) (n : Nat) : String :=
  String.mk (s.data.take n)

/-- Embeds JS `String.prototype.slice(n)` (drop the first n units). -/
def jsDrop (s : String) (n : Nat) : String :=
  String.mk (s.data.drop n)

/-! ## src/grok/models.ts -/

/-- `ModelInfo` from src/grok/models.ts. -/
structure ModelInfo where
  id : String
  grokModel : String
  modelMode : String
  displayName : String
  type : String
deriving Repr, DecidableEq

def MODEL_MODE_AUTO : String := "MODEL_MODE_AUTO"
def MODEL_MODE_FAST : String := "MODEL_MODE_FAST"
def MODEL_MODE_HEAVY : String := "MODEL_MODE_HEAVY"
def MODEL_MODE_GROK_4_MINI_THINKING : String := "MODEL_MODE_GROK_4_MINI_THINKING"
def MODEL_MODE_GROK_4_1_THINKING : String := "MODEL_MODE_GROK_4_1_THINKING"
def MODEL_MODE_EXPERT : String := "MODEL_MODE_EXPERT"

/-- The builtin model registry `MODELS` from src/grok/models.ts, verbatim. -/
def MODELS : List ModelInfo := [
  ⟨"grok-3", "grok-3", MODEL_MODE_AUTO, "Grok 3", "text"⟩,
  ⟨"grok-3-fast", "grok-3", MODEL_MODE_FAST, "Grok 3 Fast", "text"⟩,
  ⟨"grok-4", "grok-4", MODEL_MODE_AUTO, "Grok 4", "text"⟩,
  ⟨"grok-4-mini", "grok-4-mini-thinking-tahoe", MODEL_MODE_GROK_4_MINI_THINKING, "Grok 4 Mini", "text"⟩,
  ⟨"grok-4-fast", "grok-4", MODEL_MODE_FAST, "Grok 4 Fast", "text"⟩,
  ⟨"grok-4-heavy", "grok-4", MODEL_MODE_HEAVY, "Grok 4 Heavy", "text"⟩,
  ⟨"grok-4.1", "grok-4-1-thinking-1129", MODEL_MODE_AUTO, "Grok 4.1", "text"⟩,
  ⟨"grok-4.1-fast", "grok-4-1-thinking-1129", MODEL_MODE_FAST, "Grok 4.1 Fast", "text"⟩,
  ⟨"grok-4.1-expert", "grok-4-1-thinking-1129", MODEL_MODE_EXPERT, "Grok 4.1 Expert", "text"⟩,
  ⟨"grok-4.1-thinking", "grok-4-1-thinking-1129", MODEL_MODE_GROK_4_1_THINKING, "Grok 4.1 Thinking", "text"⟩,
  ⟨"grok-image", "grok-3", MODEL_MODE_FAST, "Grok Image (1:1)", "image"⟩,
  ⟨"grok-image-1_1", "grok-3", MODEL_MODE_FAST, "Grok Image (1:1)", "image"⟩,
  ⟨"grok-image-2_3", "grok-3", MODEL_MODE_FAST, "Grok Image (2:3)", "image"⟩,
  ⟨"grok-image-3_2", "grok-3", MODEL_MODE_FAST, "Grok Image (3:2)", "image"⟩,
  ⟨"grok-image-16_9", "grok-3", MODEL_MODE_FAST, "Grok Image (16:9)", "image"⟩,
  ⟨"grok-image-9_16", "grok-3", MODEL_MODE_FAST, "Grok Image (9:16)", "image"⟩,
  ⟨"grok-video", "grok-3", MODEL_MODE_FAST, "Grok Video (16:9)", "video"⟩,
  ⟨"grok-video-1_1", "grok-3", MODEL_MODE_FAST, "Grok Video (1:1)", "video"⟩,
  ⟨"grok-video-2_3", "grok-3", MODEL_MODE_FAST, "Grok Video (2:3)", "video"⟩,
  ⟨"grok-video-3_2", "grok-3", MODEL_MODE_FAST, "Grok Video (3:2)", "video"⟩,
  ⟨"grok-video-16_9", "grok-3", MODEL_MODE_FAST, "Grok Video (16:9)", "video"⟩,
  ⟨"grok-video-9_16", "grok-3", MODEL_MODE_FAST, "Grok Video (9:16)", "video"⟩
]

/-- `SUPPORTED_RATIOS` from src/grok/models.ts. -/
def SUPPORTED_RATIOS : List String := ["1:1", "2:3", "3:2", "16:9", "9:16"]

/-- `RATIO_SUFFIX_MAP` from src/grok/models.ts. -/
def RATIO_SUFFIX_MAP : List (String × String) :=
  [("1_1", "1:1"), ("2_3", "2:3"), ("3_2", "3:2"), ("16_9", "16:9"), ("9_16", "9:16")]

/-- `normalizeModelId` from src/grok/models.ts: `trim().toLowerCase()`. -/
def normalizeModelId (modelId : String) : String :=
  jsToLower (jsTrim modelId)

/-- `modelById` from src/grok/models.ts. -/
def modelById (modelId : String) : Option ModelInfo :=
  MODELS.find? (fun m => normalizeModelId m.id == normalizeModelId modelId)

/-- Matcher for the regex fragment `(\d+_\d+)$` on a character list: a nonempty run of
digits, one underscore, a nonempty run of digits. -/
def ratioSuffixChars (l : List Char) : Bool :=
  let ds := l.takeWhile Char.isDigit
  let rest := l.dropWhile Char.isDigit
  !ds.isEmpty &&
    (match rest with
     | '_' :: r2 => !r2.isEmpty && r2.all Char.isDigit
     | _ => false)

/-- Matcher for the regex fragment `(\d+_\d+)$`. -/
def isRatioSuffix (s : String) : Bool :=
  ratioSuffixChars s.data

/-- The text following the family prefix, with the optional `[-_]?` separator consumed. -/
def ratioCoreOf (normalized family : String) : String :=
  let rest := jsDrop normalized family.data.length
  if jsStartsWith rest "-" || jsStartsWith rest "_" then jsDrop rest 1 else rest

/-- The capture of the anchored regex `^<family>[-_]?(\d+_\d+)$` applied to `normalized`,
as used in `mapRemoteModelToCanonicalId`. -/
def ratioSuffixOf (normalized family : String) : Option String :=
  if jsStartsWith normalized family then
    if isRatioSuffix (ratioCoreOf normalized family) then some (ratioCoreOf normalized family)
    else none
  else none

/-- `mapRemoteModelToCanonicalId` from src/grok/models.ts.  The JS falsiness test
`if (!normalized) return null` is the empty-string test. -/
def mapRemoteModelToCanonicalId (remoteModelId : String) : Option String :=
  let normalized := normalizeModelId remoteModelId
  if normalized == "" then none
  else if (modelById normalized).isSome then some normalized
  else if jsStartsWith normalized "grok-image" then
    match ratioSuffixOf normalized "grok-image" with
    | some su =>
      let candidate := "grok-image-" ++ su
      if (modelById candidate).isSome then some candidate else some "grok-image"
    | none => some "grok-image"
  else if jsStartsWith normalized "grok-video" then
    match ratioSuffixOf normalized "grok-video" with
    | some su =>
      let candidate := "grok-video-" ++ su
      if (modelById candidate).isSome then some candidate else some "grok-video"
    | none => some "grok-video"
  else if jsStartsWith normalized "grok-4.1" then
    if jsIncludes normalized "expert" then some "grok-4.1-expert"
    else if jsIncludes normalized "thinking" then some "grok-4.1-thinking"
    else if jsIncludes normalized "fast" then some "grok-4.1-fast"
    else some "grok-4.1"
  else if jsStartsWith normalized "grok-4-mini" then some "grok-4-mini"
  else if jsStartsWith normalized "grok-4" then
    if jsIncludes normalized "heavy" then some "grok-4-heavy"
    else if jsIncludes normalized "fast" then some "grok-4-fast"
    else some "grok-4"
  else if jsStartsWith normalized "grok-3" then
    if jsIncludes normalized "fast" then some "grok-3-fast"
    else some "grok-3"
  else none

/-- The base-model / unknown fallthrough at the end of `parseModelWithRatio`. -/
def parseModelWithRatioBase (modelId : String) : String × String :=
  if modelId == "grok-image" then ("grok-image", "1:1")
  else if modelId == "grok-video" then ("grok-video", "16:9")
  else (modelId, "1:1")

/-- The video-suffix case and fallthrough of `parseModelWithRatio`. -/
def parseModelWithRatioVideo (modelId : String) : String × String :=
  if jsStartsWith modelId "grok-video-" then
    let suffix := jsDrop modelId ("grok-video-".data.length)
    match (RATIO_SUFFIX_MAP.find? (fun kv => kv.1 == suffix)) with
    | some kv => ("grok-video", kv.2)
    | none => parseModelWithRatioBase modelId
  else parseModelWithRatioBase modelId

/-- `parseModelWithRatio` from src/grok/models.ts, returning `(baseModel, aspectRatio)`. -/
def parseModelWithRatio (modelId : String) : String × String :=
  if jsStartsWith modelId "grok-image-" then
    let suffix := jsDrop modelId ("grok-image-".data.length)
    match (RATIO_SUFFIX_MAP.find? (fun kv => kv.1 == suffix)) with
    | some kv => ("grok-image", kv.2)
    | none => parseModelWithRatioVideo modelId
  else parseModelWithRatioVideo modelId

/-- `isImageModel` from src/grok/models.ts (no normalization: raw id). -/
def isImageModel (modelId : String) : Bool :=
  modelId == "grok-image" || jsStartsWith modelId "grok-image-"

/-- `isVideoModel` from src/grok/models.ts. -/
def isVideoModel (modelId : String) : Bool :=
  modelId == "grok-video" || jsStartsWith modelId "grok-video-"

/-- Candidate id list used by `findCandidateMatches` when the remote catalog cache is
empty: exactly the builtin registry ids (`getCandidateModels` with no type filter). -/
def builtinCandidateIds : List String := MODELS.map (·.id)

/-- Embeds JS `String.prototype.split(sep)` for a one-character separator, on char lists. -/
def splitOnChar (sep : Char) (l : List Char) : List (List Char) :=
  match l with
  | [] => [[]]
  | c :: t =>
    let r := splitOnChar sep t
    if c == sep then [] :: r
    else
      match r with
      | [] => [[c]]
      | h :: t2 => (c :: h) :: t2

/-- Try to match the literal segment `seg` at some position of `s` (a preceding `.*`),
continuing with `k` on the remainder. -/
def globFloat (seg : List Char) (k : List Char → Bool) (s : List Char) : Bool :=
  (s.take seg.length == seg && k (s.drop seg.length)) ||
    match s with
    | [] => false
    | _ :: t => globFloat seg k t

/-- Tail of the glob matcher embedding `wildcardToRegExp`: `escapeRegExp` makes every
character of the pattern a literal except `*`, which the translation rewrites to `.*`; the
result is anchored (`^...$`) and case-insensitive.  The pattern therefore denotes its
`*`-separated literal segments in order: the first anchored at the start, the last at the
end, the middle ones floating.  This function matches the remaining segments against `s`
after the anchored first segment has been consumed. -/
def globTailMatch (segs : List (List Char)) (s : List Char) : Bool :=
  match segs with
  | [] => s.isEmpty
  | seg :: rest => globFloat seg (globTailMatch rest) s

/-- Test of the translated wildcard regex `^seg0.*seg1.*...segN$` (case-insensitive)
against a candidate id, embedding `wildcardToRegExp(pattern).test(id)`. -/
def wildcardTest (pattern s : String) : Bool :=
  let segs := (splitOnChar '*' pattern.data).map (fun seg => seg.map Char.toLower)
  match segs with
  | [] => s.data.isEmpty
  | first :: rest =>
    let t := (jsToLower s).data
    t.take first.length == first && globTailMatch rest (t.drop first.length)

/-- `findCandidateMatches` from src/grok/models.ts restricted to the builtin registry
(the remote catalog cache empty), returning the matching candidate ids. -/
def findCandidateMatches (query : String) : List String :=
  let normalized := normalizeModelId query
  if normalized.isEmpty then []
  else if jsIncludes normalized "*" then
    builtinCandidateIds.filter (fun id => wildcardTest normalized id)
  else
    builtinCandidateIds.filter (fun id => jsStartsWith (normalizeModelId id) normalized)

/-! ## Helper lemmas on the embedded JS string primitives -/

/-- A character left fixed by normalization: not whitespace and already lower case. -/
def canonChar (c : Char) : Bool :=
  !jsIsWhitespace c && (c.toLower == c)

theorem char_digit_toLower {c : Char} (h : c.isDigit = true) : c.toLower = c := by
  simp only [Char.isDigit, Bool.and_eq_true, decide_eq_true_eq] at h
  obtain ⟨h1, h2⟩ := h
  have h3 : c.toNat ≤ 57 := UInt32.toNat_le_of_le (by decide) h2
  unfold Char.toLower
  simp only [Char.toNat] at h3 ⊢
  have hcond : ¬(65 ≤ c.val.toNat ∧ c.val.toNat ≤ 90) := by omega
  simp [hcond]

theorem char_digit_not_ws {c : Char} (h : c.isDigit = true) : jsIsWhitespace c = false := by
  have hs : c ≠ ' ' := by rintro rfl; exact absurd h (by decide)
  have ht : c ≠ '\t' := by rintro rfl; exact absurd h (by decide)
  have hn : c ≠ '\n' := by rintro rfl; exact absurd h (by decide)
  have hr : c ≠ '\r' := by rintro rfl; exact absurd h (by decide)
  simp [jsIsWhitespace, hs, ht, hn, hr]

theorem canonChar_of_digit {c : Char} (h : c.isDigit = true) : canonChar c = true := by
  simp [canonChar, char_digit_not_ws h, char_digit_toLower h]

theorem dropWhile_eq_self_of_all {p : Char → Bool} {l : List Char}
    (h : ∀ c ∈ l, p c = false) : l.dropWhile p = l := by
  cases l with
  | nil => rfl
  | cons a t => simp [List.dropWhile, h a (List.mem_cons_self a t)]

theorem map_eq_self_of_all {f : Char → Char} {l : List Char}
    (h : ∀ c ∈ l, f c = c) : l.map f = l := by
  induction l with
  | nil => rfl
  | cons a t ih =>
    simp only [List.map_cons, h a (List.mem_cons_self a t)]
    rw [ih (fun c hc => h c (List.mem_cons_of_mem a hc))]

theorem jsTrim_eq_self {s : String} (h : ∀ c ∈ s.data, jsIsWhitespace c = false) :
    jsTrim s = s := by
  unfold jsTrim
  rw [dropWhile_eq_self_of_all h,
      dropWhile_eq_self_of_all (fun c hc => h c (List.mem_reverse.mp hc)),
      List.reverse_reverse]

theorem jsToLower_eq_self {s : String} (h : ∀ c ∈ s.data, c.toLower = c) :
    jsToLower s = s := by
  unfold jsToLower
  rw [map_eq_self_of_all h]

theorem normalizeModelId_eq_self {s : String} (h : ∀ c ∈ s.data, canonChar c = true) :
    normalizeModelId s = s := by
  have hws : ∀ c ∈ s.data, jsIsWhitespace c = false := by
    intro c hc
    have := h c hc
    simp only [canonChar, Bool.and_eq_true, Bool.not_eq_true'] at this
    exact this.1
  have hlo : ∀ c ∈ (jsTrim s).data, Char.toLower c = c := by
    rw [jsTrim_eq_self hws]
    intro c hc
    have := h c hc
    simp only [canonChar, Bool.and_eq_true, beq_iff_eq] at this
    exact this.2
  unfold normalizeModelId
  rw [jsToLower_eq_self hlo, jsTrim_eq_self hws]

theorem ratioSuffixChars_all_canon {l : List Char} (h : ratioSuffixChars l = true) :
    ∀ c ∈ l, canonChar c = true := by
  unfold ratioSuffixChars at h
  simp only [Bool.and_eq_true, Bool.not_eq_true'] at h
  obtain ⟨-, hrest⟩ := h
  intro c hc
  rw [← List.takeWhile_append_dropWhile (p := Char.isDigit) (l := l)] at hc
  rcases List.mem_append.mp hc with hin | hin
  · exact canonChar_of_digit (List.mem_takeWhile_imp hin)
  · revert hrest
    cases hd : l.dropWhile Char.isDigit with
    | nil => rw [hd] at hin; simp at hin
    | cons a r2 =>
      rw [hd] at hin
      intro hrest
      split at hrest
      · next heq =>
        injection heq with h1 h2
        subst h2
        simp only [Bool.and_eq_true, Bool.not_eq_true'] at hrest
        rcases List.mem_cons.mp hin with rfl | hin2
        · try subst h1
          decide
        · exact canonChar_of_digit (by
            have hall := hrest.2
            rw [List.all_eq_true] at hall
            exact hall c hin2)
      · exact absurd hrest (by simp)

theorem ratioSuffixOf_some {n family su : String} (h : ratioSuffixOf n family = some su) :
    isRatioSuffix su = true := by
  unfold ratioSuffixOf at h
  by_cases h1 : jsStartsWith n family = true
  · rw [if_pos h1] at h
    by_cases h2 : isRatioSuffix (ratioCoreOf n family) = true
    · rw [if_pos h2] at h
      cases h
      exact h2
    · rw [if_neg h2] at h
      cases h
  · rw [if_neg h1] at h
    cases h

theorem string_ne_append_of_take_ne {a b su : String}
    (h : a.data.take b.data.length ≠ b.data) : a ≠ b ++ su := by
  intro e
  apply h
  rw [e, String.data_append, List.take_left]

theorem string_append_right_inj {b su t : String} (h : b ++ su = b ++ t) : su = t := by
  have hd := congrArg String.data h
  rw [String.data_append, String.data_append] at hd
  exact String.ext (List.append_cancel_left hd)

theorem models_norm_self : ∀ m ∈ MODELS, normalizeModelId m.id = m.id := by decide

theorem normalize_append_canon {p su : String} (hp : ∀ c ∈ p.data, canonChar c = true)
    (h : isRatioSuffix su = true) : normalizeModelId (p ++ su) = p ++ su := by
  apply normalizeModelId_eq_self
  intro c hc
  rw [String.data_append] at hc
  rcases List.mem_append.mp hc with hin | hin
  · exact hp c hin
  · exact ratioSuffixChars_all_canon h c hin

/-- The candidate lookup in `mapRemoteModelToCanonicalId` succeeds for a ratio-shaped
suffix exactly when the suffix is one of the five keys of `RATIO_SUFFIX_MAP`. -/
theorem modelById_image_candidate (su : String) (h : isRatioSuffix su = true) :
    (modelById ("grok-image-" ++ su)).isSome =
      (RATIO_SUFFIX_MAP.find? (fun kv => kv.1 == su)).isSome := by
  by_cases hmem : su ∈ ["1_1", "2_3", "3_2", "16_9", "9_16"]
  · simp only [List.mem_cons, List.not_mem_nil, or_false] at hmem
    rcases hmem with rfl | rfl | rfl | rfl | rfl <;> decide
  · have hnone : RATIO_SUFFIX_MAP.find? (fun kv => kv.1 == su) = none := by
      rw [List.find?_eq_none]
      intro kv hkv
      fin_cases hkv <;>
        (simp only [beq_iff_eq]; rintro rfl; exact hmem (by simp))
    have hbyid : modelById ("grok-image-" ++ su) = none := by
      unfold modelById
      rw [List.find?_eq_none]
      intro m hm
      rw [models_norm_self m hm, normalize_append_canon (by decide) h]
      simp only [beq_iff_eq]
      fin_cases hm
      all_goals try exact string_ne_append_of_take_ne (by decide)
      · intro e
        refine hmem ?_
        have e2 : ("grok-image-" : String) ++ "1_1" = "grok-image-" ++ su := by
          rw [(by decide : ("grok-image-" : String) ++ "1_1" = "grok-image-1_1")]
          exact e
        rw [← string_append_right_inj e2]
        decide
      · intro e
        refine hmem ?_
        have e2 : ("grok-image-" : String) ++ "2_3" = "grok-image-" ++ su := by
          rw [(by decide : ("grok-image-" : String) ++ "2_3" = "grok-image-2_3")]
          exact e
        rw [← string_append_right_inj e2]
        decide
      · intro e
        refine hmem ?_
        have e2 : ("grok-image-" : String) ++ "3_2" = "grok-image-" ++ su := by
          rw [(by decide : ("grok-image-" : String) ++ "3_2" = "grok-image-3_2")]
          exact e
        rw [← string_append_right_inj e2]
        decide
      · intro e
        refine hmem ?_
        have e2 : ("grok-image-" : String) ++ "16_9" = "grok-image-" ++ su := by
          rw [(by decide : ("grok-image-" : String) ++ "16_9" = "grok-image-16_9")]
          exact e
        rw [← string_append_right_inj e2]
        decide
      · intro e
        refine hmem ?_
        have e2 : ("grok-image-" : String) ++ "9_16" = "grok-image-" ++ su := by
          rw [(by decide : ("grok-image-" : String) ++ "9_16" = "grok-image-9_16")]
          exact e
        rw [← string_append_right_inj e2]
        decide
    rw [hbyid, hnone]
    rfl


/-- Mirror of `modelById_image_candidate` for the video family. -/
theorem modelById_video_candidate (su : String) (h : isRatioSuffix su = true) :
    (modelById ("grok-video-" ++ su)).isSome =
      (RATIO_SUFFIX_MAP.find? (fun kv => kv.1 == su)).isSome := by
  by_cases hmem : su ∈ ["1_1", "2_3", "3_2", "16_9", "9_16"]
  · simp only [List.mem_cons, List.not_mem_nil, or_false] at hmem
    rcases hmem with rfl | rfl | rfl | rfl | rfl <;> decide
  · have hnone : RATIO_SUFFIX_MAP.find? (fun kv => kv.1 == su) = none := by
      rw [List.find?_eq_none]
      intro kv hkv
      fin_cases hkv <;>
        (simp only [beq_iff_eq]; rintro rfl; exact hmem (by simp))
    have hbyid : modelById ("grok-video-" ++ su) = none := by
      unfold modelById
      rw [List.find?_eq_none]
      intro m hm
      rw [models_norm_self m hm, normalize_append_canon (by decide) h]
      simp only [beq_iff_eq]
      fin_cases hm
      all_goals try exact string_ne_append_of_take_ne (by decide)
      · intro e
        refine hmem ?_
        have e2 : ("grok-video-" : String) ++ "1_1" = "grok-video-" ++ su := by
          rw [(by decide : ("grok-video-" : String) ++ "1_1" = "grok-video-1_1")]
          exact e
        rw [← string_append_right_inj e2]
        decide
      · intro e
        refine hmem ?_
        have e2 : ("grok-video-" : String) ++ "2_3" = "grok-video-" ++ su := by
          rw [(by decide : ("grok-video-" : String) ++ "2_3" = "grok-video-2_3")]
          exact e
        rw [← string_append_right_inj e2]
        decide
      · intro e
        refine hmem ?_
        have e2 : ("grok-video-" : String) ++ "3_2" = "grok-video-" ++ su := by
          rw [(by decide : ("grok-video-" : String) ++ "3_2" = "grok-video-3_2")]
          exact e
        rw [← string_append_right_inj e2]
        decide
      · intro e
        refine hmem ?_
        have e2 : ("grok-video-" : String) ++ "16_9" = "grok-video-" ++ su := by
          rw [(by decide : ("grok-video-" : String) ++ "16_9" = "grok-video-16_9")]
          exact e
        rw [← string_append_right_inj e2]
        decide
      · intro e
        refine hmem ?_
        have e2 : ("grok-video-" : String) ++ "9_16" = "grok-video-" ++ su := by
          rw [(by decide : ("grok-video-" : String) ++ "9_16" = "grok-video-9_16")]
          exact e
        rw [← string_append_right_inj e2]
        decide
    rw [hbyid, hnone]
    rfl


/-- The five ratio-suffix keys. -/
def ratioSuffixKeys : List String := ["1_1", "2_3", "3_2", "16_9", "9_16"]

theorem find?_key_mem {su : String}
    (hk : (RATIO_SUFFIX_MAP.find? (fun kv => kv.1 == su)).isSome = true) :
    su ∈ ratioSuffixKeys := by
  rcases List.find?_isSome.mp hk with ⟨kv, hkv, hpred⟩
  fin_cases hkv <;> (rw [beq_iff_eq] at hpred; subst hpred; decide)

/-- Spec-side canonicalization rule for one family (the refinement side of the claim on
remote-id canonicalization): resolve the underscore-separated aspect-ratio suffix through
the fixed ratio table, yielding the builtin ratio-variant id, and default to the family's
base id when no suffix matches one of the fixed ratios. -/
def specFamilyCanonicalId (family n : String) : String :=
  match ratioSuffixOf n family with
  | some su =>
    if (RATIO_SUFFIX_MAP.find? (fun kv => kv.1 == su)).isSome then (family ++ "-") ++ su
    else family
  | none => family

/-- The six builtin ids of the image family (base plus the five ratio variants). -/
def imageFamilyIds : List String :=
  ["grok-image", "grok-image-1_1", "grok-image-2_3", "grok-image-3_2",
   "grok-image-16_9", "grok-image-9_16"]

/-- The six builtin ids of the video family (base plus the five ratio variants). -/
def videoFamilyIds : List String :=
  ["grok-video", "grok-video-1_1", "grok-video-2_3", "grok-video-3_2",
   "grok-video-16_9", "grok-video-9_16"]

theorem startsWith_video_not_image {n : String}
    (h : jsStartsWith n "grok-video" = true) : jsStartsWith n "grok-image" = false := by
  unfold jsStartsWith at h ⊢
  rw [(by decide : ("grok-video" : String).data.length = 10)] at h
  rw [(by decide : ("grok-image" : String).data.length = 10)]
  rw [beq_iff_eq] at h
  rw [h]
  decide

/-- C6: canonicalization of a remote model id.  An exact builtin match always wins; an
image- or video-prefixed id resolves its underscore-separated aspect-ratio suffix through
the fixed ratio table (five ratios), yielding the corresponding builtin ratio-variant id,
and defaults to the family's base id when no suffix matches; the result always lies in the
six ids of the family; an id with an unrecognized prefix receives no canonical mapping. -/
theorem C6_canonicalization (r : String) :
    ((modelById (normalizeModelId r)).isSome = true →
        mapRemoteModelToCanonicalId r = some (normalizeModelId r))
    ∧ ((modelById (normalizeModelId r)).isSome = false →
        jsStartsWith (normalizeModelId r) "grok-image" = true →
          mapRemoteModelToCanonicalId r
              = some (specFamilyCanonicalId "grok-image" (normalizeModelId r))
            ∧ specFamilyCanonicalId "grok-image" (normalizeModelId r) ∈ imageFamilyIds)
    ∧ ((modelById (normalizeModelId r)).isSome = false →
        jsStartsWith (normalizeModelId r) "grok-video" = true →
          mapRemoteModelToCanonicalId r
              = some (specFamilyCanonicalId "grok-video" (normalizeModelId r))
            ∧ specFamilyCanonicalId "grok-video" (normalizeModelId r) ∈ videoFamilyIds)
    ∧ ((modelById (normalizeModelId r)).isSome = false →
        jsStartsWith (normalizeModelId r) "grok-image" = false →
        jsStartsWith (normalizeModelId r) "grok-video" = false →
        jsStartsWith (normalizeModelId r) "grok-4.1" = false →
        jsStartsWith (normalizeModelId r) "grok-4-mini" = false →
        jsStartsWith (normalizeModelId r) "grok-4" = false →
        jsStartsWith (normalizeModelId r) "grok-3" = false →
          mapRemoteModelToCanonicalId r = none) := by
  refine ⟨?_, ?_, ?_, ?_⟩
  · intro h1
    have hne : ¬(normalizeModelId r == "") = true := by
      rw [beq_iff_eq]
      intro e
      rw [e] at h1
      exact absurd h1 (by decide)
    simp only [mapRemoteModelToCanonicalId]
    rw [if_neg hne, if_pos h1]
  · intro h1 h2
    have hne : ¬(normalizeModelId r == "") = true := by
      rw [beq_iff_eq]
      intro e
      rw [e] at h2
      exact absurd h2 (by decide)
    have h1f : ¬(modelById (normalizeModelId r)).isSome = true := by simp [h1]
    constructor
    · simp only [mapRemoteModelToCanonicalId]
      rw [if_neg hne, if_neg h1f, if_pos h2]
      cases hsu : ratioSuffixOf (normalizeModelId r) "grok-image" with
      | none => simp [specFamilyCanonicalId, hsu]
      | some su =>
        have hshape := ratioSuffixOf_some hsu
        have hbridge := modelById_image_candidate su hshape
        simp only [specFamilyCanonicalId, hsu]
        by_cases hk : (RATIO_SUFFIX_MAP.find? (fun kv => kv.1 == su)).isSome = true
        · rw [if_pos (hbridge.trans hk), if_pos hk]
          rw [(by decide : ("grok-image" ++ "-" : String) = "grok-image-")]
        · rw [if_neg (by rw [hbridge]; exact hk), if_neg hk]
    · cases hsu : ratioSuffixOf (normalizeModelId r) "grok-image" with
      | none => simp [specFamilyCanonicalId, hsu, imageFamilyIds]
      | some su =>
        simp only [specFamilyCanonicalId, hsu]
        by_cases hk : (RATIO_SUFFIX_MAP.find? (fun kv => kv.1 == su)).isSome = true
        · rw [if_pos hk]
          have hmem := find?_key_mem hk
          fin_cases hmem <;> decide
        · rw [if_neg hk]
          decide
  · intro h1 h2
    have hne : ¬(normalizeModelId r == "") = true := by
      rw [beq_iff_eq]
      intro e
      rw [e] at h2
      exact absurd h2 (by decide)
    have h1f : ¬(modelById (normalizeModelId r)).isSome = true := by simp [h1]
    have himg : ¬(jsStartsWith (normalizeModelId r) "grok-image") = true := by
      simp [startsWith_video_not_image h2]
    constructor
    · simp only [mapRemoteModelToCanonicalId]
      rw [if_neg hne, if_neg h1f, if_neg himg, if_pos h2]
      cases hsu : ratioSuffixOf (normalizeModelId r) "grok-video" with
      | none => simp [specFamilyCanonicalId, hsu]
      | some su =>
        have hshape := ratioSuffixOf_some hsu
        have hbridge := modelById_video_candidate su hshape
        simp only [specFamilyCanonicalId, hsu]
        by_cases hk : (RATIO_SUFFIX_MAP.find? (fun kv => kv.1 == su)).isSome = true
        · rw [if_pos (hbridge.trans hk), if_pos hk]
          rw [(by decide : ("grok-video" ++ "-" : String) = "grok-video-")]
        · rw [if_neg (by rw [hbridge]; exact hk), if_neg hk]
    · cases hsu : ratioSuffixOf (normalizeModelId r) "grok-video" with
      | none => simp [specFamilyCanonicalId, hsu, videoFamilyIds]
      | some su =>
        simp only [specFamilyCanonicalId, hsu]
        by_cases hk : (RATIO_SUFFIX_MAP.find? (fun kv => kv.1 == su)).isSome = true
        · rw [if_pos hk]
          have hmem := find?_key_mem hk
          fin_cases hmem <;> decide
        · rw [if_neg hk]
          decide
  · intro h1 hi hv h41 h4m h4 h3
    by_cases he : (normalizeModelId r == "") = true
    · simp only [mapRemoteModelToCanonicalId]
      rw [if_pos he]
    · simp only [mapRemoteModelToCanonicalId]
      rw [if_neg he, if_neg (by simp [h1]), if_neg (by simp [hi]), if_neg (by simp [hv]),
          if_neg (by simp [h41]), if_neg (by simp [h4m]), if_neg (by simp [h4]),
          if_neg (by simp [h3])]

/-- Witness instantiating `C6_canonicalization` at concrete remote ids. -/
theorem C6_canonicalization_witness :
    mapRemoteModelToCanonicalId "grok-image-4_3" = some "grok-image"
    ∧ mapRemoteModelToCanonicalId "grok-image_16_9" = some "grok-image-16_9"
    ∧ mapRemoteModelToCanonicalId "grok-video-7_7" = some "grok-video"
    ∧ mapRemoteModelToCanonicalId "Grok-4.1 " = some "grok-4.1"
    ∧ mapRemoteModelToCanonicalId "gpt-4o" = none := by
  refine ⟨?_, ?_, ?_, ?_, ?_⟩
  · have h := ((C6_canonicalization "grok-image-4_3").2.1 (by decide) (by decide)).1
    rw [(by decide :
      specFamilyCanonicalId "grok-image" (normalizeModelId "grok-image-4_3")
        = "grok-image")] at h
    exact h
  · have h := ((C6_canonicalization "grok-image_16_9").2.1 (by decide) (by decide)).1
    rw [(by decide :
      specFamilyCanonicalId "grok-image" (normalizeModelId "grok-image_16_9")
        = "grok-image-16_9")] at h
    exact h
  · have h := ((C6_canonicalization "grok-video-7_7").2.2.1 (by decide) (by decide)).1
    rw [(by decide :
      specFamilyCanonicalId "grok-video" (normalizeModelId "grok-video-7_7")
        = "grok-video")] at h
    exact h
  · have h := (C6_canonicalization "Grok-4.1 ").1 (by decide)
    rw [(by decide : normalizeModelId "Grok-4.1 " = "grok-4.1")] at h
    exact h
  · exact (C6_canonicalization "gpt-4o").2.2.2 (by decide) (by decide) (by decide)
      (by decide) (by decide) (by decide) (by decide)

/-- C6 counterexample: the fixed ratio table and the ratio-variant descriptors of each
family number five, not six (the sixth id of each family is its base id, which is the
no-suffix default, not a ratio-suffix resolution target). -/
theorem ratio_table_has_five_entries :
    SUPPORTED_RATIOS.length = 5
    ∧ RATIO_SUFFIX_MAP.length = 5
    ∧ (MODELS.filter (fun m => m.type == "image" && m.id != "grok-image")).length = 5
    ∧ (MODELS.filter (fun m => m.type == "video" && m.id != "grok-video")).length = 5
    ∧ ¬ SUPPORTED_RATIOS.length = 6 := by
  decide

/-- C9: the wildcard query "grok-4*" matches exactly the builtin ids with prefix
"grok-4" and no others, and the starless query "grok-4" selects the same candidate set by
prefix matching. -/
theorem grok4_wildcard_eq_grok4_pre :
    findCandidateMatches "grok-4*"
        = builtinCandidateIds.filter (fun id => jsStartsWith id "grok-4")
    ∧ findCandidateMatches "grok-4" = findCandidateMatches "grok-4*"
    ∧ findCandidateMatches "grok-4*"
        = ["grok-4", "grok-4-mini", "grok-4-fast", "grok-4-heavy",
           "grok-4.1", "grok-4.1-fast", "grok-4.1-expert", "grok-4.1-thinking"] := by
  decide

/-! ## src/repo/tokens.ts (credential pool import and merge) -/

/-- `TokenRow` from the tokens repository. -/
structure TokenRow where
  id : String
  sso : String
  sso_rw : String
  user_id : String
  cf_clearance : String
  name : String
  added_at : Nat
  use_count : Nat
  status : String
  nsfw_enabled : Nat
deriving Repr, DecidableEq

/-- Modelled from the spec: the `md5` helper (src/utils/crypto) is not among the sources.
The spec describes the credential id as "a deterministic content hash of the normalized
primarySecret", used purely as a dedup key ("re-importing the same secret updates, never
duplicates"), so it is modelled as an injective deterministic function of the cleaned
secret. -/
def md5 (s : String) : String := s

/-- `generateTokenId` from the tokens repository. -/
def generateTokenId (sso : String) : String := md5 sso

/-- `cleanSso` from the tokens repository.  Note the asymmetry in the source: an input
literally starting with "sso=" is sliced but NOT trimmed; any other input is trimmed but
keeps an "sso=" prefix that leading whitespace hid from `startsWith`. -/
def cleanSso (sso : String) : String :=
  if jsStartsWith sso "sso=" then jsDrop sso 4 else jsTrim sso

/-- The token store as a row list in insertion order; `getToken` is the lookup by id. -/
def getToken (store : List TokenRow) (tokenId : String) : Option TokenRow :=
  store.find? (fun r => r.id == tokenId)

/-- `addToken` from the tokens repository: computes the id from the cleaned secret and
either updates the existing row (overwriting only the non-empty incoming fields) or
inserts a fresh row with the derived preview name when no name is given. -/
def addToken (store : List TokenRow) (sso sso_rw user_id cf_clearance name : String)
    (now : Nat) : List TokenRow :=
  let cleanedSso := cleanSso sso
  let id := generateTokenId cleanedSso
  match getToken store id with
  | some _ =>
    store.map (fun r =>
      if r.id == id then
        { r with
          sso_rw := if sso_rw != "" then sso_rw else r.sso_rw
          user_id := if user_id != "" then user_id else r.user_id
          cf_clearance := if cf_clearance != "" then cf_clearance else r.cf_clearance
          name := if name != "" then name else r.name }
      else r)
  | none =>
    store ++ [{ id := id, sso := cleanedSso, sso_rw := sso_rw, user_id := user_id,
                cf_clearance := cf_clearance,
                name := if name != "" then name else jsTake cleanedSso 8 ++ "...",
                added_at := now, use_count := 0, status := "active", nsfw_enabled := 0 }]

/-- `ParsedTokenInput` from the tokens repository. -/
structure ParsedTokenInput where
  sso : String
  sso_rw : String
  user_id : String
  cf_clearance : String
  name : String
deriving Repr, DecidableEq

/-- One `INSERT ... ON CONFLICT(id) DO UPDATE` statement of `addTokensBulk`.  The name
passed to the statement is `item.name || preview`, so the SQL `excluded.name` is never
empty and the `CASE WHEN excluded.name != ''` merge always overwrites the stored name. -/
def bulkUpsertOne (store : List TokenRow) (item : ParsedTokenInput) (now : Nat) :
    List TokenRow :=
  let cleanedSso := cleanSso item.sso
  if cleanedSso == "" then store
  else
    let id := generateTokenId cleanedSso
    let name := if item.name != "" then item.name else jsTake cleanedSso 8 ++ "..."
    match getToken store id with
    | some _ =>
      store.map (fun r =>
        if r.id == id then
          { r with
            sso_rw := if item.sso_rw != "" then item.sso_rw else r.sso_rw
            user_id := if item.user_id != "" then item.user_id else r.user_id
            cf_clearance :=
              if item.cf_clearance != "" then item.cf_clearance else r.cf_clearance
            name := if name != "" then name else r.name }
        else r)
    | none =>
      store ++ [{ id := id, sso := cleanedSso, sso_rw := item.sso_rw,
                  user_id := item.user_id, cf_clearance := item.cf_clearance,
                  name := name, added_at := now, use_count := 0, status := "active",
                  nsfw_enabled := 0 }]

/-- `addTokensBulk` from the tokens repository: the D1 batching (50 statements per batch)
only bounds write sizes; the row-level effect is each upsert statement applied in order. -/
def addTokensBulk (store : List TokenRow) (items : List ParsedTokenInput) (now : Nat) :
    List TokenRow :=
  items.foldl (fun st item => bulkUpsertOne st item now) store

/-- Spec-side normalization of a primary secret, following the claim's words: trimmed,
then the "sso=" prefix stripped. -/
def specNormalizeSecret (sso : String) : String :=
  let t := jsTrim sso
  if jsStartsWith t "sso=" then jsDrop t 4 else t

/-- C3 counterexample.  First: the inputs " sso=abc" and "abc" have the same trimmed,
prefix-stripped secret, yet `cleanSso` (which strips without trimming, or trims without
stripping) gives them different ids, and importing both creates two rows.  Second: a bulk
re-import whose incoming name is empty overwrites the stored name "MyToken" with the
derived preview "secret-a...", although the claim says an empty incoming field never
overwrites a stored value. -/
theorem credential_import_counterexample :
    specNormalizeSecret " sso=abc" = specNormalizeSecret "abc"
    ∧ generateTokenId (cleanSso " sso=abc") ≠ generateTokenId (cleanSso "abc")
    ∧ (addToken (addToken [] " sso=abc" "" "" "" "" 0) "abc" "" "" "" "" 0).length = 2
    ∧ (addToken [] "secret-alpha" "" "" "" "MyToken" 0).map (fun r => r.name) = ["MyToken"]
    ∧ (addTokensBulk (addToken [] "secret-alpha" "" "" "" "MyToken" 0)
        [⟨"secret-alpha", "", "", "", ""⟩] 1).map (fun r => r.name) = ["secret-a..."] := by
  refine ⟨by decide, by decide, by decide, by decide, by decide⟩

/-- C3 as amended: for the code's own normalization (`cleanSso`), the id is a pure
function of the cleaned secret and a re-import of an existing id never adds a row; a
single-credential update overwrites each field only when the incoming value is non-empty;
a bulk update does the same for the secondary secret, account id and challenge token, but
the incoming name is first defaulted to the secret preview, so a bulk re-import with an
empty name overwrites the stored name with the preview. -/
theorem credential_import_merge (store : List TokenRow)
    (sso sso_rw user_id cf_clearance name : String) (now : Nat) :
    (∀ sso2, cleanSso sso2 = cleanSso sso →
        generateTokenId (cleanSso sso2) = generateTokenId (cleanSso sso))
    ∧ ((getToken store (generateTokenId (cleanSso sso))).isSome = true →
        (addToken store sso sso_rw user_id cf_clearance name now).length = store.length)
    ∧ (∀ r0, getToken store (generateTokenId (cleanSso sso)) = some r0 →
        getToken (addToken store sso sso_rw user_id cf_clearance name now)
            (generateTokenId (cleanSso sso))
          = some { r0 with
              sso_rw := if sso_rw != "" then sso_rw else r0.sso_rw
              user_id := if user_id != "" then user_id else r0.user_id
              cf_clearance := if cf_clearance != "" then cf_clearance else r0.cf_clearance
              name := if name != "" then name else r0.name })
    ∧ (∀ r0 (item : ParsedTokenInput), (cleanSso item.sso == "") = false →
        getToken store (generateTokenId (cleanSso item.sso)) = some r0 →
        getToken (bulkUpsertOne store item now) (generateTokenId (cleanSso item.sso))
          = some { r0 with
              sso_rw := if item.sso_rw != "" then item.sso_rw else r0.sso_rw
              user_id := if item.user_id != "" then item.user_id else r0.user_id
              cf_clearance :=
                if item.cf_clearance != "" then item.cf_clearance else r0.cf_clearance
              name := if item.name != "" then item.name
                      else jsTake (cleanSso item.sso) 8 ++ "..." }) := by
  refine ⟨?_, ?_, ?_, ?_⟩
  · intro sso2 h
    rw [h]
  · intro h
    cases hg : getToken store (generateTokenId (cleanSso sso)) with
    | none => rw [hg] at h; cases h
    | some r => simp [addToken, hg]
  · intro r0 hg
    have hpr := List.find?_some hg
    simp only [addToken, hg]
    unfold getToken
    rw [List.find?_map]
    have hfun :
        ((fun r : TokenRow => r.id == generateTokenId (cleanSso sso)) ∘
          (fun r : TokenRow =>
            if r.id == generateTokenId (cleanSso sso) then
              { r with
                sso_rw := if sso_rw != "" then sso_rw else r.sso_rw
                user_id := if user_id != "" then user_id else r.user_id
                cf_clearance :=
                  if cf_clearance != "" then cf_clearance else r.cf_clearance
                name := if name != "" then name else r.name }
            else r))
          = (fun r : TokenRow => r.id == generateTokenId (cleanSso sso)) := by
      funext r
      by_cases hr : r.id = generateTokenId (cleanSso sso)
      · simp [Function.comp, hr]
      · simp [Function.comp, hr]
    rw [hfun]
    rw [show store.find? (fun r => r.id == generateTokenId (cleanSso sso)) = some r0
          from hg]
    simp only [Option.map_some']
    rw [if_pos hpr]
  · intro r0 item hcl hg
    have hpr := List.find?_some hg
    simp only [bulkUpsertOne]
    rw [if_neg (by simp [hcl])]
    rw [show getToken store (generateTokenId (cleanSso item.sso)) = some r0 from hg]
    unfold getToken
    rw [List.find?_map]
    have hfun :
        ((fun r : TokenRow => r.id == generateTokenId (cleanSso item.sso)) ∘
          (fun r : TokenRow =>
            if r.id == generateTokenId (cleanSso item.sso) then
              { r with
                sso_rw := if item.sso_rw != "" then item.sso_rw else r.sso_rw
                user_id := if item.user_id != "" then item.user_id else r.user_id
                cf_clearance :=
                  if item.cf_clearance != "" then item.cf_clearance else r.cf_clearance
                name :=
                  if (if item.name != "" then item.name
                      else jsTake (cleanSso item.sso) 8 ++ "...") != "" then
                    (if item.name != "" then item.name
                     else jsTake (cleanSso item.sso) 8 ++ "...")
                  else r.name }
            else r))
          = (fun r : TokenRow => r.id == generateTokenId (cleanSso item.sso)) := by
      funext r
      by_cases hr : r.id = generateTokenId (cleanSso item.sso)
      · simp [Function.comp, hr]
      · simp [Function.comp, hr]
    rw [hfun]
    rw [show store.find? (fun r => r.id == generateTokenId (cleanSso item.sso)) = some r0
          from hg]
    simp only [Option.map_some']
    rw [if_pos hpr]
    have hname : ((if item.name != "" then item.name
        else jsTake (cleanSso item.sso) 8 ++ "...") != "") = true := by
      by_cases hn : (item.name != "") = true
      · simp only [if_pos hn]
        exact hn
      · simp only [if_neg hn]
        simp only [bne_iff_ne, ne_eq]
        intro e
        have hd := congrArg String.data e
        rw [String.data_append] at hd
        simp at hd
    rw [if_pos hname]

/-- Witness instantiating `credential_import_merge` at a concrete store and inputs. -/
theorem credential_import_merge_witness :
    getToken (addToken [⟨"abc", "abc", "", "u0", "", "Old", 0, 0, "active", 0⟩]
        "abc" "rw2" "" "" "" 1) "abc"
      = some ⟨"abc", "abc", "rw2", "u0", "", "Old", 0, 0, "active", 0⟩
    ∧ getToken (bulkUpsertOne [⟨"abc", "abc", "", "u0", "", "Old", 0, 0, "active", 0⟩]
        ⟨"abc", "", "u1", "", ""⟩ 1) "abc"
      = some ⟨"abc", "abc", "", "u1", "", "abc...", 0, 0, "active", 0⟩ := by
  constructor
  · have h := (credential_import_merge
        [⟨"abc", "abc", "", "u0", "", "Old", 0, 0, "active", 0⟩] "abc" "rw2" "" "" "" 1).2.2.1
        ⟨"abc", "abc", "", "u0", "", "Old", 0, 0, "active", 0⟩ (by decide)
    exact (by decide :
        getToken (addToken [⟨"abc", "abc", "", "u0", "", "Old", 0, 0, "active", 0⟩]
          "abc" "rw2" "" "" "" 1) "abc"
        = getToken (addToken [⟨"abc", "abc", "", "u0", "", "Old", 0, 0, "active", 0⟩]
          "abc" "rw2" "" "" "" 1) (generateTokenId (cleanSso "abc"))).trans
      (h.trans (by decide))
  · have h := (credential_import_merge
        [⟨"abc", "abc", "", "u0", "", "Old", 0, 0, "active", 0⟩] "" "" "" "" "" 1).2.2.2
        ⟨"abc", "abc", "", "u0", "", "Old", 0, 0, "active", 0⟩
        ⟨"abc", "", "u1", "", ""⟩ (by decide) (by decide)
    exact (by decide :
        getToken (bulkUpsertOne [⟨"abc", "abc", "", "u0", "", "Old", 0, 0, "active", 0⟩]
          ⟨"abc", "", "u1", "", ""⟩ 1) "abc"
        = getToken (bulkUpsertOne [⟨"abc", "abc", "", "u0", "", "Old", 0, 0, "active", 0⟩]
          ⟨"abc", "", "u1", "", ""⟩ 1)
          (generateTokenId (cleanSso (⟨"abc", "", "u1", "", ""⟩ : ParsedTokenInput).sso))).trans
      (h.trans (by decide))

/-! ## src/grok/imagine.ts — image-collection session (connectAndReceive) -/

/-- `ImageResult` from src/grok/imagine.ts. -/
structure ImageResult where
  job_id : String
  request_id : String
  url : String
  blob : String
  prompt : String
  full_prompt : String
  width : Nat
  height : Nat
  model_name : String
  grid_index : Nat
  order : Nat
  r_rated : Bool
  moderated : Bool
deriving Repr, DecidableEq

/-- Inbound duplex-socket messages handled by `connectAndReceive` (tag field `type`:
"json", "image" or "error"; parse failures and unknown tags are skipped, and the missing
JSON fields default as in the source: empty strings, zero, false). -/
inductive WsMsg where
  | json (job_id current_status : String) (percentage_complete : Nat)
  | image (job_id request_id url blob prompt full_prompt model_name : String)
      (width height grid_index order : Nat) (r_rated moderated : Bool)
  | error (message : String)
deriving Repr, DecidableEq

/-- Collection state of one `connectAndReceive` session.  The JS `Map` is modelled as a
lookup function (the source only gets and sets it); the JS `Set`s are modelled as
duplicate-free lists. -/
structure SessionState where
  receivedImages : String → Option ImageResult
  completedJobs : List String
  failedJobs : List String
  emittedJobs : List String
  results : List ImageResult

def SessionState.initial : SessionState :=
  ⟨fun _ => none, [], [], [], []⟩

/-- `Set.prototype.add`. -/
def setAdd (s : List String) (x : String) : List String :=
  if s.contains x then s else s ++ [x]

/-- The "is this a full image" heuristic of the session: blob over 100000 units or url
ending in ".jpg". -/
def isFullImageOf (blob url : String) : Bool :=
  decide (blob.data.length > 100000) || jsEndsWith url ".jpg"

/-- One inbound message of the `connectAndReceive` message handler (the "json" and
"image" branches mutate the collection state; an "error" message settles the session and
leaves the collections unchanged). -/
def sessionStep (st : SessionState) (m : WsMsg) : SessionState :=
  match m with
  | .json job_id current_status percentage_complete =>
    if current_status == "completed" && decide (percentage_complete ≥ 100) then
      { st with completedJobs := setAdd st.completedJobs job_id }
    else if current_status == "error" then
      { st with failedJobs := setAdd st.failedJobs job_id }
    else st
  | .image job_id request_id url blob prompt full_prompt model_name
      width height grid_index order r_rated moderated =>
    if job_id == "" then st
    else
      let existingBlobLen :=
        match st.receivedImages job_id with
        | some r => r.blob.data.length
        | none => 0
      let blobLen := blob.data.length
      let isFullImage := isFullImageOf blob url
      if (st.receivedImages job_id).isNone || decide (blobLen > existingBlobLen) then
        let result : ImageResult :=
          ⟨job_id, request_id, url, blob, prompt, full_prompt, width, height, model_name,
           grid_index, order, r_rated, moderated⟩
        let st2 := { st with receivedImages :=
          fun k => if k == job_id then some result else st.receivedImages k }
        if isFullImage && !moderated && !st2.emittedJobs.contains job_id then
          { st2 with emittedJobs := setAdd st2.emittedJobs job_id,
                     results := st2.results ++ [result] }
        else st2
      else st
  | .error _ => st

/-- A whole session's message processing. -/
def processSession (msgs : List WsMsg) : SessionState :=
  msgs.foldl sessionStep SessionState.initial

/-- The collection invariants of one session. -/
def SessionInv (st : SessionState) : Prop :=
  ((st.results.map (fun r => r.job_id)).Nodup)
  ∧ (∀ r ∈ st.results, st.emittedJobs.contains r.job_id = true)
  ∧ (st.results.all (fun r => !r.moderated && isFullImageOf r.blob r.url) = true)
  ∧ (∀ j r, st.receivedImages j = some r → isFullImageOf r.blob r.url = true →
      r.moderated = false → st.emittedJobs.contains j = true)

theorem contains_setAdd_self (s : List String) (x : String) :
    (setAdd s x).contains x = true := by
  unfold setAdd
  split
  · assumption
  · exact List.elem_eq_true_of_mem (List.mem_append_right _ (by simp))

theorem contains_setAdd_mono {s : List String} {y : String} (x : String)
    (h : s.contains y = true) : (setAdd s x).contains y = true := by
  unfold setAdd
  split
  · exact h
  · exact List.elem_eq_true_of_mem
      (List.mem_append_left _ (List.mem_of_elem_eq_true h))

theorem sessionInv_initial : SessionInv SessionState.initial := by
  refine ⟨by simp [SessionState.initial], by simp [SessionState.initial],
    by simp [SessionState.initial], ?_⟩
  intro j r h
  cases h

theorem sessionInv_step (st : SessionState) (m : WsMsg) (h : SessionInv st) :
    SessionInv (sessionStep st m) := by
  obtain ⟨ha, hb, hc, hd⟩ := h
  cases m with
  | json jid cs pc =>
    simp only [sessionStep]
    split
    · exact ⟨ha, hb, hc, hd⟩
    · split
      · exact ⟨ha, hb, hc, hd⟩
      · exact ⟨ha, hb, hc, hd⟩
  | error msg => exact ⟨ha, hb, hc, hd⟩
  | image jid rid url blob pr fp mn w hgt gi od rr mod =>
    simp only [sessionStep]
    split
    · exact ⟨ha, hb, hc, hd⟩
    · split
      · split
        · next hemit =>
          simp only [Bool.and_eq_true, Bool.not_eq_true'] at hemit
          obtain ⟨⟨hfull, hmod⟩, hnew⟩ := hemit
          have hnotin : jid ∉ st.results.map (fun r => r.job_id) := by
            intro hmem
            rcases List.mem_map.mp hmem with ⟨r, hr, hrid⟩
            have hcr := hb r hr
            rw [hrid] at hcr
            rw [hcr] at hnew
            simp at hnew
          refine ⟨?_, ?_, ?_, ?_⟩
          · simp only [List.map_append, List.map_cons, List.map_nil]
            rw [List.nodup_append]
            exact ⟨ha, List.nodup_singleton _, by
              intro x hx hy
              simp only [List.mem_cons, List.not_mem_nil, or_false] at hy
              subst hy
              exact hnotin hx⟩
          · intro r hr
            rcases List.mem_append.mp hr with hr1 | hr2
            · exact contains_setAdd_mono _ (hb r hr1)
            · simp only [List.mem_cons, List.not_mem_nil, or_false] at hr2
              subst hr2
              exact contains_setAdd_self _ _
          · rw [List.all_append]
            simp only [Bool.and_eq_true]
            refine ⟨hc, ?_⟩
            simp [hfull, hmod]
          · intro j2 r hj hfull2 hmod2
            dsimp only at hj
            by_cases hjj : j2 = jid
            · subst hjj
              exact contains_setAdd_self _ _
            · rw [if_neg (by simpa using hjj)] at hj
              exact contains_setAdd_mono _ (hd j2 r hj hfull2 hmod2)
        · next hemit =>
          refine ⟨ha, hb, hc, ?_⟩
          intro j2 r hj hfull2 hmod2
          dsimp only at hj
          by_cases hjj : j2 = jid
          · subst hjj
            rw [if_pos (by simp)] at hj
            cases hj
            by_cases hcont : st.emittedJobs.contains j2 = true
            · exact hcont
            · exfalso
              apply hemit
              simp only [Bool.and_eq_true, Bool.not_eq_true']
              exact ⟨⟨hfull2, hmod2⟩, by simpa using hcont⟩
          · rw [if_neg (by simpa using hjj)] at hj
            exact hd j2 r hj hfull2 hmod2
      · exact ⟨ha, hb, hc, hd⟩

theorem sessionInv_fold (msgs : List WsMsg) (st : SessionState) (h : SessionInv st) :
    SessionInv (msgs.foldl sessionStep st) := by
  induction msgs generalizing st with
  | nil => exact h
  | cons m rest ih => exact ih _ (sessionInv_step st m h)

theorem sessionStep_supersede (st : SessionState) (m : WsMsg) (j : String)
    (r r2 : ImageResult) (h1 : st.receivedImages j = some r)
    (h2 : (sessionStep st m).receivedImages j = some r2) :
    r2 = r ∨ r2.blob.data.length > r.blob.data.length := by
  cases m with
  | json jid cs pc =>
    simp only [sessionStep] at h2
    split at h2
    · dsimp only at h2
      rw [h1] at h2
      cases h2
      exact Or.inl rfl
    · split at h2
      · dsimp only at h2
        rw [h1] at h2
        cases h2
        exact Or.inl rfl
      · rw [h1] at h2
        cases h2
        exact Or.inl rfl
  | error msg =>
    simp only [sessionStep] at h2
    rw [h1] at h2
    cases h2
    exact Or.inl rfl
  | image jid rid url blob pr fp mn w hgt gi od rr mod =>
    simp only [sessionStep] at h2
    split at h2
    · rw [h1] at h2
      cases h2
      exact Or.inl rfl
    · split at h2
      · next hstore =>
        split at h2
        · dsimp only at h2
          by_cases hjj : j = jid
          · subst hjj
            rw [if_pos (by simp)] at h2
            cases h2
            rw [h1] at hstore
            simp only [Option.isNone_some, Bool.false_or, decide_eq_true_eq] at hstore
            exact Or.inr hstore
          · rw [if_neg (by simpa using hjj)] at h2
            rw [h1] at h2
            cases h2
            exact Or.inl rfl
        · dsimp only at h2
          by_cases hjj : j = jid
          · subst hjj
            rw [if_pos (by simp)] at h2
            cases h2
            rw [h1] at hstore
            simp only [Option.isNone_some, Bool.false_or, decide_eq_true_eq] at hstore
            exact Or.inr hstore
          · rw [if_neg (by simpa using hjj)] at h2
            rw [h1] at h2
            cases h2
            exact Or.inl rfl
      · rw [h1] at h2
        cases h2
        exact Or.inl rfl

/-- C4: within one image-collection session, every job id produces at most one emitted
image event (the emitted job-id list is duplicate-free), every emitted result is
classified complete (payload over the fixed threshold or ".jpg" url) and unmoderated, a
tracked payload that is complete and unmoderated has already been emitted (emission at
the first completion), and the tracked payload for a job is superseded only by a strictly
larger payload. -/
theorem image_session_dedup (msgs : List WsMsg) :
    ((processSession msgs).results.map (fun r => r.job_id)).Nodup
    ∧ ((processSession msgs).results.all
        (fun r => !r.moderated && isFullImageOf r.blob r.url)) = true
    ∧ (∀ j r, (processSession msgs).receivedImages j = some r →
        isFullImageOf r.blob r.url = true → r.moderated = false →
        (processSession msgs).emittedJobs.contains j = true)
    ∧ (∀ (st : SessionState) (m : WsMsg) (j : String) (r r2 : ImageResult),
        st.receivedImages j = some r →
        (sessionStep st m).receivedImages j = some r2 →
        r2 = r ∨ r2.blob.data.length > r.blob.data.length) := by
  obtain ⟨ha, hb, hc, hd⟩ := sessionInv_fold msgs SessionState.initial sessionInv_initial
  exact ⟨ha, hc, hd, fun st m j r r2 h1 h2 => sessionStep_supersede st m j r r2 h1 h2⟩

/-- A concrete session trace: job "a" receives a partial payload, then a complete one
(emitted), job "b" receives a complete but moderated payload (never emitted). -/
def demoImagineTrace : List WsMsg :=
  [ .image "a" "r1" "u.png" "xx" "" "" "" 0 0 0 0 false false,
    .image "a" "r2" "u.jpg" "xxx" "" "" "" 0 0 0 0 false false,
    .image "b" "r3" "v.jpg" "" "" "" "" 0 0 0 0 false true ]

/-- The payload tracked for job "a" after the first message of `demoImagineTrace`. -/
def demoSmall : ImageResult := ⟨"a", "r1", "u.png", "xx", "", "", 0, 0, "", 0, 0, false, false⟩

/-- The payload tracked for job "a" at the end of `demoImagineTrace`. -/
def demoTracked : ImageResult := ⟨"a", "r2", "u.jpg", "xxx", "", "", 0, 0, "", 0, 0, false, false⟩

/-- Witness instantiating `image_session_dedup` on `demoImagineTrace`. -/
theorem image_session_dedup_witness :
    (processSession demoImagineTrace).receivedImages "a" = some demoTracked
    ∧ (processSession demoImagineTrace).emittedJobs.contains "a" = true
    ∧ ((processSession demoImagineTrace).results.map (fun r => r.job_id)).Nodup
    ∧ (demoTracked = demoSmall
        ∨ demoTracked.blob.data.length > demoSmall.blob.data.length) := by
  refine ⟨by decide, ?_, ?_, ?_⟩
  · exact (image_session_dedup demoImagineTrace).2.2.1 "a" demoTracked
      (by decide) (by decide) (by decide)
  · exact (image_session_dedup demoImagineTrace).1
  · exact (image_session_dedup demoImagineTrace).2.2.2
      (processSession [WsMsg.image "a" "r1" "u.png" "xx" "" "" "" 0 0 0 0 false false])
      (.image "a" "r2" "u.jpg" "xxx" "" "" "" 0 0 0 0 false false)
      "a" demoSmall demoTracked (by decide) (by decide)

/-! ## src/grok/chat.ts — thinking state machine of streamTextChat -/

/-- The relevant fields of one parsed NDJSON line (`data.result.response`): an optional
response id, whether the final `modelResponse` object is present, an optional token and
its thinking flag. -/
structure RespLine where
  responseId : Option String
  modelResponse : Bool
  token : Option String
  isThinking : Bool
deriving Repr, DecidableEq

/-- Translator state of `streamTextChat` while consuming the NDJSON stream, instrumented
with counters that are incremented exactly in the branches emitting the opening marker
`<think>\n` and the closing marker `\n</think>\n`. -/
structure ThinkState where
  responseId : String
  isThinking : Bool
  thinkingFinished : Bool
  outputs : List String
  openCount : Nat
  closeCount : Nat
deriving Repr, DecidableEq

def ThinkState.initial : ThinkState := ⟨"", false, false, [], 0, 0⟩

/-- The `responseId` capture: `if (resp.responseId && !responseId) responseId = ...`. -/
def applyRespId (st : ThinkState) (rid? : Option String) : ThinkState :=
  match rid? with
  | some rid =>
    if rid != "" && st.responseId == "" then { st with responseId := rid } else st
  | none => st

@[simp] theorem applyRespId_isThinking (st : ThinkState) (r : Option String) :
    (applyRespId st r).isThinking = st.isThinking := by
  cases r with
  | none => rfl
  | some rid =>
    simp only [applyRespId]
    split <;> rfl

@[simp] theorem applyRespId_thinkingFinished (st : ThinkState) (r : Option String) :
    (applyRespId st r).thinkingFinished = st.thinkingFinished := by
  cases r with
  | none => rfl
  | some rid =>
    simp only [applyRespId]
    split <;> rfl

@[simp] theorem applyRespId_outputs (st : ThinkState) (r : Option String) :
    (applyRespId st r).outputs = st.outputs := by
  cases r with
  | none => rfl
  | some rid =>
    simp only [applyRespId]
    split <;> rfl

@[simp] theorem applyRespId_openCount (st : ThinkState) (r : Option String) :
    (applyRespId st r).openCount = st.openCount := by
  cases r with
  | none => rfl
  | some rid =>
    simp only [applyRespId]
    split <;> rfl

@[simp] theorem applyRespId_closeCount (st : ThinkState) (r : Option String) :
    (applyRespId st r).closeCount = st.closeCount := by
  cases r with
  | none => rfl
  | some rid =>
    simp only [applyRespId]
    split <;> rfl

/-- Process one NDJSON line; the returned flag tells whether the per-chunk line loop
breaks (a `modelResponse` line). -/
def processLine (showThinking : Bool) (st : ThinkState) (line : RespLine) :
    ThinkState × Bool :=
  let st0 := applyRespId st line.responseId
  if line.modelResponse then
    if st0.isThinking && showThinking then
      ({ st0 with outputs := st0.outputs ++ ["\n</think>\n"],
                  closeCount := st0.closeCount + 1, isThinking := false }, true)
    else (st0, true)
  else
    match line.token with
    | none => (st0, false)
    | some tok =>
      if tok == "" then (st0, false)
      else
        let currentIsThinking := line.isThinking
        if st0.thinkingFinished && currentIsThinking then (st0, false)
        else if !st0.isThinking && currentIsThinking then
          if showThinking then
            ({ st0 with outputs := st0.outputs ++ ["<think>\n" ++ tok],
                        openCount := st0.openCount + 1,
                        isThinking := currentIsThinking }, false)
          else (st0, false)
        else if st0.isThinking && !currentIsThinking then
          if showThinking then
            ({ st0 with outputs := st0.outputs ++ ["\n</think>\n" ++ tok],
                        closeCount := st0.closeCount + 1,
                        thinkingFinished := true,
                        isThinking := currentIsThinking }, false)
          else
            ({ st0 with outputs := st0.outputs ++ [tok],
                        thinkingFinished := true,
                        isThinking := currentIsThinking }, false)
        else if currentIsThinking && !showThinking then (st0, false)
        else
          ({ st0 with outputs := st0.outputs ++ [tok],
                      isThinking := currentIsThinking }, false)

/-- Process the lines of one read chunk, stopping at a `modelResponse` line (the `break`
leaves only the current chunk's line loop). -/
def processChunk (showThinking : Bool) (st : ThinkState) (lines : List RespLine) :
    ThinkState :=
  match lines with
  | [] => st
  | l :: rest =>
    let p := processLine showThinking st l
    if p.2 then p.1 else processChunk showThinking p.1 rest

/-- Process the whole stream (a list of chunks, each a list of parsed lines). -/
def processStream (showThinking : Bool) (chunks : List (List RespLine)) : ThinkState :=
  chunks.foldl (processChunk showThinking) ThinkState.initial

/-- The trailing close emitted after the read loop when the stream ends while thinking. -/
def finalizeStream (showThinking : Bool) (st : ThinkState) : ThinkState :=
  if st.isThinking && showThinking then
    { st with outputs := st.outputs ++ ["\n</think>\n"], closeCount := st.closeCount + 1 }
  else st

/-- The full token-emission behaviour of `streamTextChat` on a parsed stream. -/
def streamTextTokens (showThinking : Bool) (chunks : List (List RespLine)) : ThinkState :=
  finalizeStream showThinking (processStream showThinking chunks)

/-- The plain (non-thinking, nonempty) tokens of one chunk up to its first
`modelResponse` line. -/
def chunkPlainTokens (lines : List RespLine) : List String :=
  match lines with
  | [] => []
  | l :: rest =>
    if l.modelResponse then []
    else
      match l.token with
      | some tok =>
        if tok != "" && !l.isThinking then tok :: chunkPlainTokens rest
        else chunkPlainTokens rest
      | none => chunkPlainTokens rest

/-- The plain tokens of a whole stream. -/
def plainTokens (chunks : List (List RespLine)) : List String :=
  (chunks.map chunkPlainTokens).flatten

/-- The per-line token contribution when "show thinking" is disabled. -/
def plainDelta (l : RespLine) : List String :=
  if l.modelResponse then []
  else
    match l.token with
    | some tok => if tok != "" && !l.isThinking then [tok] else []
    | none => []

theorem processLine_showFalse (st : ThinkState) (l : RespLine)
    (h : st.isThinking = false) :
    (processLine false st l).1.isThinking = false
    ∧ (processLine false st l).1.thinkingFinished = st.thinkingFinished
    ∧ (processLine false st l).1.openCount = st.openCount
    ∧ (processLine false st l).1.closeCount = st.closeCount
    ∧ (processLine false st l).1.outputs = st.outputs ++ plainDelta l
    ∧ (processLine false st l).2 = l.modelResponse := by
  rcases l with ⟨rid, mr, tk, thk⟩
  cases mr with
  | true => simp [processLine, plainDelta, h]
  | false =>
    cases tk with
    | none => simp [processLine, plainDelta, h]
    | some tok =>
      by_cases htok : tok = ""
      · simp [processLine, plainDelta, htok, h]
      · cases thk with
        | true =>
          by_cases hf : st.thinkingFinished = true
          · simp [processLine, plainDelta, htok, h, hf]
          · simp [processLine, plainDelta, htok, h, hf]
        | false => simp [processLine, plainDelta, htok, h]

theorem chunkPlainTokens_mr {l : RespLine} (rest : List RespLine)
    (hmr : l.modelResponse = true) : chunkPlainTokens (l :: rest) = [] := by
  simp only [chunkPlainTokens, hmr, if_true]

theorem chunkPlainTokens_cons_noMR {l : RespLine} (rest : List RespLine)
    (hmr : l.modelResponse = false) :
    chunkPlainTokens (l :: rest) = plainDelta l ++ chunkPlainTokens rest := by
  simp only [chunkPlainTokens, plainDelta, hmr]
  cases tk : l.token with
  | none => simp
  | some tok =>
    by_cases htok : tok = ""
    · simp [htok]
    · by_cases ht : l.isThinking = false <;> simp [htok, ht]

theorem processChunk_showFalse (lines : List RespLine) (st : ThinkState)
    (h : st.isThinking = false) :
    (processChunk false st lines).isThinking = false
    ∧ (processChunk false st lines).thinkingFinished = st.thinkingFinished
    ∧ (processChunk false st lines).openCount = st.openCount
    ∧ (processChunk false st lines).closeCount = st.closeCount
    ∧ (processChunk false st lines).outputs = st.outputs ++ chunkPlainTokens lines := by
  induction lines generalizing st with
  | nil => exact ⟨h, rfl, rfl, rfl, by simp [processChunk, chunkPlainTokens]⟩
  | cons l rest ih =>
    obtain ⟨h1, h2, h3, h4, h5, h6⟩ := processLine_showFalse st l h
    simp only [processChunk]
    cases hmr : l.modelResponse with
    | true =>
      rw [h6, hmr]
      simp only [if_true]
      refine ⟨h1, h2, h3, h4, ?_⟩
      rw [h5, chunkPlainTokens_mr rest hmr]
      simp [plainDelta, hmr]
    | false =>
      rw [h6, hmr]
      simp only [Bool.false_eq_true, if_false]
      obtain ⟨g1, g2, g3, g4, g5⟩ := ih (processLine false st l).1 h1
      refine ⟨g1, h2 ▸ g2, h3 ▸ g3, h4 ▸ g4, ?_⟩
      rw [g5, h5, List.append_assoc, chunkPlainTokens_cons_noMR rest hmr]

theorem foldChunks_showFalse (chunks : List (List RespLine)) (st : ThinkState)
    (h : st.isThinking = false) :
    (chunks.foldl (processChunk false) st).isThinking = false
    ∧ (chunks.foldl (processChunk false) st).openCount = st.openCount
    ∧ (chunks.foldl (processChunk false) st).closeCount = st.closeCount
    ∧ (chunks.foldl (processChunk false) st).outputs = st.outputs ++ plainTokens chunks := by
  induction chunks generalizing st with
  | nil => exact ⟨h, rfl, rfl, by simp [plainTokens]⟩
  | cons c rest ih =>
    simp only [List.foldl_cons]
    obtain ⟨h1, _, h3, h4, h5⟩ := processChunk_showFalse c st h
    obtain ⟨g1, g2, g3, g4⟩ := ih (processChunk false st c) h1
    refine ⟨g1, by rw [g2, h3], by rw [g3, h4], ?_⟩
    rw [g4, h5, List.append_assoc]
    congr 1

/-- With "show thinking" disabled the translator emits exactly the plain tokens: no
markers, no thinking content, and the thinking state never turns on. -/
theorem streamTextTokens_showFalse (chunks : List (List RespLine)) :
    (streamTextTokens false chunks).outputs = plainTokens chunks
    ∧ (streamTextTokens false chunks).openCount = 0
    ∧ (streamTextTokens false chunks).closeCount = 0 := by
  obtain ⟨h1, h2, h3, h4⟩ := foldChunks_showFalse chunks ThinkState.initial rfl
  unfold streamTextTokens finalizeStream processStream
  rw [if_neg (by simp)]
  exact ⟨by simpa using h4, by simpa using h2, by simpa using h3⟩

theorem processLine_stop (sh : Bool) (st : ThinkState) (l : RespLine) :
    (processLine sh st l).2 = l.modelResponse := by
  rcases l with ⟨rid, mr, tk, thk⟩
  cases mr with
  | true => simp [processLine, apply_ite Prod.snd]
  | false =>
    cases tk with
    | none => simp [processLine]
    | some tok =>
      by_cases htok : tok = "" <;> simp [processLine, htok, apply_ite Prod.snd]

/-- The three states reachable by the thinking machine when no mid-stream
`modelResponse` close occurs: never opened, open, or closed-and-latched. -/
def ThinkInvNoMR (st : ThinkState) : Prop :=
  (st.isThinking = false ∧ st.thinkingFinished = false
    ∧ st.openCount = 0 ∧ st.closeCount = 0)
  ∨ (st.isThinking = true ∧ st.thinkingFinished = false
    ∧ st.openCount = 1 ∧ st.closeCount = 0)
  ∨ (st.isThinking = false ∧ st.thinkingFinished = true
    ∧ st.openCount = 1 ∧ st.closeCount = 1)

theorem processLine_noMR_inv (st : ThinkState) (l : RespLine)
    (hmr : l.modelResponse = false) (h : ThinkInvNoMR st) :
    ThinkInvNoMR (processLine true st l).1 := by
  rcases l with ⟨rid, mr, tk, thk⟩
  simp only at hmr
  subst hmr
  cases tk with
  | none =>
    unfold ThinkInvNoMR at h ⊢
    simpa [processLine] using h
  | some tok =>
    by_cases htok : tok = ""
    · unfold ThinkInvNoMR at h ⊢
      simpa [processLine, htok] using h
    · rcases h with ⟨e1, e2, e3, e4⟩ | ⟨e1, e2, e3, e4⟩ | ⟨e1, e2, e3, e4⟩ <;>
        cases thk <;>
        simp [processLine, ThinkInvNoMR, htok, e1, e2, e3, e4]

theorem processChunk_noMR_inv (lines : List RespLine) (st : ThinkState)
    (hmr : ∀ l ∈ lines, l.modelResponse = false) (h : ThinkInvNoMR st) :
    ThinkInvNoMR (processChunk true st lines) := by
  induction lines generalizing st with
  | nil => exact h
  | cons l rest ih =>
    simp only [processChunk]
    rw [processLine_stop true st l, hmr l (by simp)]
    simp only [Bool.false_eq_true, if_false]
    exact ih (processLine true st l).1
      (fun l2 hl2 => hmr l2 (List.mem_cons_of_mem l hl2))
      (processLine_noMR_inv st l (hmr l (by simp)) h)

theorem streamTextTokens_noMR (chunks : List (List RespLine))
    (hmr : ∀ c ∈ chunks, ∀ l ∈ c, l.modelResponse = false) :
    (streamTextTokens true chunks).openCount ≤ 1
    ∧ (streamTextTokens true chunks).closeCount ≤ 1
    ∧ (streamTextTokens true chunks).closeCount ≤ (streamTextTokens true chunks).openCount := by
  have hfold : ThinkInvNoMR (processStream true chunks) := by
    unfold processStream
    have haux : ∀ (cs : List (List RespLine)) (st : ThinkState),
        (∀ c ∈ cs, ∀ l ∈ c, l.modelResponse = false) → ThinkInvNoMR st →
        ThinkInvNoMR (cs.foldl (processChunk true) st) := by
      intro cs
      induction cs with
      | nil => intro st _ h; exact h
      | cons c rest ih =>
        intro st hcs h
        simp only [List.foldl_cons]
        exact ih _ (fun c2 hc2 => hcs c2 (List.mem_cons_of_mem c hc2))
          (processChunk_noMR_inv c st (hcs c (by simp)) h)
    exact haux chunks ThinkState.initial hmr (Or.inl ⟨rfl, rfl, rfl, rfl⟩)
  unfold streamTextTokens finalizeStream
  rcases hfold with ⟨e1, e2, e3, e4⟩ | ⟨e1, e2, e3, e4⟩ | ⟨e1, e2, e3, e4⟩ <;>
    simp [e1, e2, e3, e4]

theorem processLine_open_only (sh : Bool) (st : ThinkState) (l : RespLine)
    (hne : (processLine sh st l).1.openCount ≠ st.openCount) :
    sh = true ∧ st.isThinking = false ∧ l.isThinking = true ∧ l.modelResponse = false
      ∧ st.thinkingFinished = false := by
  rcases l with ⟨rid, mr, tk, thk⟩
  cases mr with
  | true =>
    exact absurd
      (by simp [processLine, apply_ite (fun p : ThinkState × Bool => p.1.openCount)]) hne
  | false =>
    cases tk with
    | none => exact absurd (by simp [processLine]) hne
    | some tok =>
      by_cases htok : tok = ""
      · exact absurd (by simp [processLine, htok]) hne
      · by_cases hsh : sh = true
        · by_cases hthink : st.isThinking = false
          · by_cases hcur : thk = true
            · by_cases hlatch : st.thinkingFinished = false
              · exact ⟨hsh, hthink, hcur, rfl, hlatch⟩
              · exact absurd (by
                  have hl : st.thinkingFinished = true := by
                    simpa using hlatch
                  simp [processLine, htok, hl, hcur,
                    apply_ite (fun p : ThinkState × Bool => p.1.openCount)]) hne
            · have hcur2 : thk = false := by simpa using hcur
              exact absurd (by
                simp [processLine, htok, hcur2, hthink,
                  apply_ite (fun p : ThinkState × Bool => p.1.openCount)]) hne
          · have hthink2 : st.isThinking = true := by simpa using hthink
            exact absurd (by
              simp [processLine, htok, hthink2,
                apply_ite (fun p : ThinkState × Bool => p.1.openCount)]) hne
        · have hsh2 : sh = false := by simpa using hsh
          exact absurd (by
            simp [processLine, htok, hsh2,
              apply_ite (fun p : ThinkState × Bool => p.1.openCount)]) hne

theorem processLine_latched (sh : Bool) (st : ThinkState) (l : RespLine)
    (hf : st.thinkingFinished = true) (ht : st.isThinking = false) :
    (processLine sh st l).1.thinkingFinished = true
    ∧ (processLine sh st l).1.isThinking = false
    ∧ (processLine sh st l).1.openCount = st.openCount
    ∧ (processLine sh st l).1.closeCount = st.closeCount := by
  rcases l with ⟨rid, mr, tk, thk⟩
  cases mr with
  | true => simp [processLine, hf, ht]
  | false =>
    cases tk with
    | none => simp [processLine, hf, ht]
    | some tok =>
      by_cases htok : tok = ""
      · simp [processLine, hf, ht, htok]
      · cases thk <;> simp [processLine, hf, ht, htok]

/-- C5 as amended: thinking markers in a chat stream are balanced and latched on the
token path.  (1) With "show thinking" disabled, the translator emits exactly the plain
non-thinking tokens, with no markers.  (2) If no `modelResponse` line occurs before
further tokens, at most one opening and at most one closing marker are emitted, closes
never exceeding opens.  (3) An opening marker is emitted only on a NORMAL-to-THINKING
transition with "show thinking" enabled and the latch unset.  (4) Once the token-path
latch is set, thinking never reopens and no further markers are emitted.  (The closing
marker emitted on a mid-stream `modelResponse` line does not set the latch, so thinking
can reopen after it — see the counterexample.) -/
theorem thinking_marker_machine (chunks : List (List RespLine)) :
    ((streamTextTokens false chunks).outputs = plainTokens chunks
      ∧ (streamTextTokens false chunks).openCount = 0
      ∧ (streamTextTokens false chunks).closeCount = 0)
    ∧ ((∀ c ∈ chunks, ∀ l ∈ c, l.modelResponse = false) →
        (streamTextTokens true chunks).openCount ≤ 1
          ∧ (streamTextTokens true chunks).closeCount ≤ 1
          ∧ (streamTextTokens true chunks).closeCount
              ≤ (streamTextTokens true chunks).openCount)
    ∧ (∀ (sh : Bool) (st : ThinkState) (l : RespLine),
        (processLine sh st l).1.openCount ≠ st.openCount →
          sh = true ∧ st.isThinking = false ∧ l.isThinking = true
            ∧ l.modelResponse = false ∧ st.thinkingFinished = false)
    ∧ (∀ (sh : Bool) (st : ThinkState) (l : RespLine),
        st.thinkingFinished = true → st.isThinking = false →
          (processLine sh st l).1.thinkingFinished = true
          ∧ (processLine sh st l).1.isThinking = false
          ∧ (processLine sh st l).1.openCount = st.openCount
          ∧ (processLine sh st l).1.closeCount = st.closeCount) :=
  ⟨streamTextTokens_showFalse chunks,
    streamTextTokens_noMR chunks,
    fun sh st l hne => processLine_open_only sh st l hne,
    fun sh st l hf ht => processLine_latched sh st l hf ht⟩

/-- A stream whose first chunk ends in a `modelResponse` line while thinking, followed by
a second chunk with more thinking tokens. -/
def thinkCexChunks : List (List RespLine) :=
  [ [⟨none, false, some "a", true⟩, ⟨none, true, none, false⟩],
    [⟨none, false, some "b", true⟩, ⟨none, false, some "c", false⟩] ]

/-- C5 counterexample: on `thinkCexChunks` the machine emits two closing markers in one
response and reopens thinking after the first close, because the `modelResponse` close
sets `isThinking := false` without setting the `thinkingFinished` latch, and its `break`
leaves only the current chunk's line loop. -/
theorem thinking_markers_counterexample :
    (streamTextTokens true thinkCexChunks).closeCount = 2
    ∧ (streamTextTokens true thinkCexChunks).openCount = 2
    ∧ (streamTextTokens true thinkCexChunks).outputs
        = ["<think>\na", "\n</think>\n", "<think>\nb", "\n</think>\nc"] := by
  decide

/-- A single-chunk stream with a thinking token, a normal token, and a trailing thinking
token, used to instantiate `thinking_marker_machine`. -/
def thinkDemoChunks : List (List RespLine) :=
  [[⟨some "rid1", false, some "hello", true⟩, ⟨none, false, some " world", false⟩,
    ⟨none, false, some "!", true⟩]]

/-- A latched machine state. -/
def latchedThinkState : ThinkState := ⟨"", false, true, [], 1, 1⟩

/-- A thinking-token line. -/
def thinkTokenLine : RespLine := ⟨none, false, some "x", true⟩

/-- Witness instantiating `thinking_marker_machine`. -/
theorem thinking_marker_machine_witness :
    ((streamTextTokens true thinkDemoChunks).openCount ≤ 1
      ∧ (streamTextTokens true thinkDemoChunks).closeCount ≤ 1
      ∧ (streamTextTokens true thinkDemoChunks).closeCount
          ≤ (streamTextTokens true thinkDemoChunks).openCount)
    ∧ (true = true ∧ ThinkState.initial.isThinking = false
        ∧ thinkTokenLine.isThinking = true ∧ thinkTokenLine.modelResponse = false
        ∧ ThinkState.initial.thinkingFinished = false)
    ∧ ((processLine true latchedThinkState thinkTokenLine).1.thinkingFinished = true
        ∧ (processLine true latchedThinkState thinkTokenLine).1.isThinking = false
        ∧ (processLine true latchedThinkState thinkTokenLine).1.openCount
            = latchedThinkState.openCount
        ∧ (processLine true latchedThinkState thinkTokenLine).1.closeCount
            = latchedThinkState.closeCount) :=
  ⟨(thinking_marker_machine thinkDemoChunks).2.1 (by decide),
    (thinking_marker_machine thinkDemoChunks).2.2.1 true ThinkState.initial thinkTokenLine
      (by decide),
    (thinking_marker_machine thinkDemoChunks).2.2.2 true latchedThinkState thinkTokenLine
      (by decide) (by decide)⟩

/-! ## src/grok/imagine.ts — pagination driver (generateImages) -/

/-- The outcome of one `connectAndReceive` session: its resolved image list, or the
rejection message (rate-limit close, socket error, or an upstream error message). -/
inductive SessionOutcome where
  | ok (images : List ImageResult)
  | fail (message : String)

/-- The driver's outward events (`progress`, `image`, `error`, `done`), restricted to the
fields the claims mention. -/
inductive DriverEvent where
  | progress (completed target : Nat)
  | image (job_id url : String)
  | error (message : String)
  | done
deriving Repr, DecidableEq

/-- The driver's run summary: its event list, the isScroll flag of every session run (in
order), and the accumulated job ids. -/
structure DriverResult where
  events : List DriverEvent
  scrollFlags : List Bool
  collected : List String
deriving Repr, DecidableEq

/-- `maxPages = Math.ceil(count / 6) + 2`. -/
def maxPages (count : Nat) : Nat := (count + 5) / 6 + 2

/-- The driver's inner per-image loop: skip moderated or url-less images and job ids
already collected, emit an image and a progress event per fresh job, and break once the
requested count is reached. -/
def collectLoop (count : Nat) (imgs : List ImageResult) (collected : List String)
    (events : List DriverEvent) : List String × List DriverEvent :=
  match imgs with
  | [] => (collected, events)
  | img :: rest =>
    if img.moderated || img.url == "" then collectLoop count rest collected events
    else if collected.contains img.job_id then collectLoop count rest collected events
    else
      let collected2 := collected ++ [img.job_id]
      let events2 := events ++
        [.image img.job_id img.url, .progress collected2.length count]
      if collected2.length ≥ count then (collected2, events2)
      else collectLoop count rest collected2 events2

/-- The page loop of `generateImages`: run while pages remain (`fuel` counts down from
`maxPages`) and the requested count is not reached; the first session is a non-scroll
request and every later one a scroll continuation; a rate-limit failure (message with
"429" or "Rate limited") or any other failure ends the driver with an error event and no
done event. -/
def drivePages (script : Nat → SessionOutcome) (count : Nat) :
    Nat → Nat → List String → List DriverEvent → List Bool → DriverResult
  | 0, _, collected, events, flags => ⟨events ++ [.done], flags, collected⟩
  | fuel + 1, page, collected, events, flags =>
    if collected.length ≥ count then ⟨events ++ [.done], flags, collected⟩
    else
      let isScroll := decide (page > 0)
      match script page with
      | .fail msg =>
        if jsIncludes msg "429" || jsIncludes msg "Rate limited" then
          ⟨events ++ [.error "Rate limited (429)"], flags ++ [isScroll], collected⟩
        else ⟨events ++ [.error msg], flags ++ [isScroll], collected⟩
      | .ok imgs =>
        let p := collectLoop count imgs collected events
        drivePages script count fuel (page + 1) p.1 p.2 (flags ++ [isScroll])

/-- `generateImages` as a function of the per-page session outcomes. -/
def generateImagesModel (count : Nat) (script : Nat → SessionOutcome) : DriverResult :=
  drivePages script count (maxPages count) 0 [] [DriverEvent.progress 0 count] []

/-- The isScroll flags of `k` consecutive sessions starting at page `page`: the session
at page 0 is a non-continuation, every later one a continuation. -/
def scrollPattern (page k : Nat) : List Bool :=
  match k with
  | 0 => []
  | k + 1 => decide (page > 0) :: List.replicate k true

theorem scrollPattern_pos (page k : Nat) :
    scrollPattern (page + 1) k = List.replicate k true := by
  cases k with
  | zero => rfl
  | succ m => simp [scrollPattern, List.replicate_succ]

theorem drivePages_flags (script : Nat → SessionOutcome) (count : Nat) :
    ∀ (fuel page : Nat) (collected : List String) (events : List DriverEvent)
      (flags : List Bool),
      ∃ k, k ≤ fuel ∧ (drivePages script count fuel page collected events flags).scrollFlags
        = flags ++ scrollPattern page k := by
  intro fuel
  induction fuel with
  | zero =>
    intro page collected events flags
    exact ⟨0, Nat.le_refl 0, by simp [drivePages, scrollPattern]⟩
  | succ fuel ih =>
    intro page collected events flags
    simp only [drivePages]
    split
    · exact ⟨0, Nat.zero_le _, by simp [scrollPattern]⟩
    · split
      · next msg heq =>
        refine ⟨1, by omega, ?_⟩
        split <;> rfl
      · next imgs heq =>
        obtain ⟨k, hk, hflags⟩ := ih (page + 1)
          (collectLoop count imgs collected events).1
          (collectLoop count imgs collected events).2
          (flags ++ [decide (page > 0)])
        refine ⟨k + 1, Nat.succ_le_succ hk, ?_⟩
        rw [hflags, scrollPattern_pos, List.append_assoc]
        rfl

/-- C7 as amended: the paginating image driver never runs more than
`ceil(count/6) + 2` sessions; the sessions' continuation flags are false for the first
session and true for every later one; and in the concrete scenario of requesting 10
images where every session returns 6 fresh, unmoderated, url-bearing images, it
terminates after exactly 2 sessions with exactly 10 accumulated images.  (If moderated
results reduce the fresh-image yield, more sessions run, up to the page budget — see the
counterexample.) -/
theorem image_driver_pagination (count : Nat) (script : Nat → SessionOutcome) :
    (∃ n, n ≤ maxPages count
      ∧ (generateImagesModel count script).scrollFlags = scrollPattern 0 n)
    ∧ ((generateImagesModel 10 (fun page => SessionOutcome.ok ((List.range 6).map
          (fun i => ⟨"p" ++ toString page ++ "-" ++ toString i, "", "u.jpg", "", "", "",
            0, 0, "", 0, 0, false, false⟩)))).scrollFlags = [false, true]
        ∧ (generateImagesModel 10 (fun page => SessionOutcome.ok ((List.range 6).map
            (fun i => ⟨"p" ++ toString page ++ "-" ++ toString i, "", "u.jpg", "", "", "",
              0, 0, "", 0, 0, false, false⟩)))).collected.length = 10) := by
  constructor
  · obtain ⟨k, hk, hflags⟩ := drivePages_flags script count (maxPages count) 0 []
      [DriverEvent.progress 0 count] []
    exact ⟨k, hk, by simpa [generateImagesModel] using hflags⟩
  · constructor <;> decide

/-- C7 counterexample: with 10 images requested and every session returning 6 images of
which 2 are moderated, the driver needs 3 sessions, not 2 — the moderated results reduce
each session's fresh yield to 4. -/
theorem image_driver_moderated_counterexample :
    (generateImagesModel 10 (fun page => SessionOutcome.ok ((List.range 6).map
        (fun i => ⟨"p" ++ toString page ++ "-" ++ toString i, "", "u.jpg", "", "", "",
          0, 0, "", 0, 0, false, decide (i < 2)⟩)))).scrollFlags
      = [false, true, true]
    ∧ (generateImagesModel 10 (fun page => SessionOutcome.ok ((List.range 6).map
        (fun i => ⟨"p" ++ toString page ++ "-" ++ toString i, "", "u.jpg", "", "", "",
          0, 0, "", 0, 0, false, decide (i < 2)⟩)))).collected.length = 10 := by
  constructor <;> decide

/-! ## src/grok/models.ts — remote catalog sync (syncXaiModels) -/

def DEFAULT_XAI_TTL_MS : Nat := 5 * 60 * 1000

/-- `parseTtlMs`: zero, NaN or missing falls back to the default. -/
def parseTtlMs (ttlMs : Option Nat) : Nat :=
  match ttlMs with
  | none => DEFAULT_XAI_TTL_MS
  | some t => if t = 0 then DEFAULT_XAI_TTL_MS else t

/-- `XaiModelCacheState` (the process-wide `xaiModelCache`). -/
structure XaiModelCacheState where
  ids : List String
  updatedAt : Nat
  lastError : String
  lastStatus : Nat
deriving Repr, DecidableEq

/-- `XaiModelSyncResult` (absent JS fields are `none`). -/
structure XaiModelSyncResult where
  ok : Bool
  fromCache : Bool
  ids : List String
  updatedAt : Option Nat
  error : Option String
  status : Option Nat
deriving Repr, DecidableEq

/-- What the single `fetch` of `syncXaiModels` produced: a non-2xx response with its
body text, a 2xx response with its parsed JSON body (`none` when `response.json()`
failed or the body had no `data` array — both yield an empty id list downstream), or a
thrown transport exception. -/
inductive FetchOutcome where
  | httpError (status : Nat) (text : String)
  | okPayload (status : Nat) (payload : Option (List String))
  | exception (message : String)

/-- Insertion-ordered deduplication (the JS `Set` accumulation). -/
def dedupKeep (l : List String) : List String :=
  l.foldl (fun acc s => if acc.contains s then acc else acc ++ [s]) []

/-- `parseXaiModelIds`: each item's id string is trimmed, empties are skipped, and
duplicates are dropped in insertion order; a malformed payload gives the empty list. -/
def parseXaiModelIds (payload : Option (List String)) : List String :=
  match payload with
  | none => []
  | some items => dedupKeep ((items.map jsTrim).filter (fun s => s != ""))

/-- `syncXaiModels` as a pure function of the cache state, the options, the two
`Date.now()` reads and the fetch outcome.  `now - cache.updatedAt` uses truncated
subtraction; the source compares real timestamps where `now` is never smaller. -/
def syncXaiModels (cache : XaiModelCacheState) (apiKey : String) (ttlMs : Option Nat)
    (force : Bool) (now now2 : Nat) (fetch : FetchOutcome) :
    XaiModelCacheState × XaiModelSyncResult :=
  if jsTrim apiKey == "" then
    (cache,
     ⟨false, true, cache.ids, if cache.updatedAt = 0 then none else some cache.updatedAt,
      some "XAI_API_KEY not configured", none⟩)
  else
    let ttl := parseTtlMs ttlMs
    if !force && decide (cache.ids.length > 0) && decide (cache.updatedAt > 0)
        && decide (now - cache.updatedAt < ttl) then
      (cache,
       ⟨true, true, cache.ids, some cache.updatedAt, none,
        some (if cache.lastStatus = 0 then 200 else cache.lastStatus)⟩)
    else
      match fetch with
      | .httpError status text =>
        let error := "x.ai models sync failed: HTTP " ++ toString status
          ++ (if text != "" then " - " ++ jsTake text 200 else "")
        ({ cache with lastError := error, lastStatus := status },
         ⟨false, false, cache.ids,
          (if cache.updatedAt = 0 then none else some cache.updatedAt),
          some error, some status⟩)
      | .okPayload status payload =>
        let ids := parseXaiModelIds payload
        (⟨ids, now2, "", status⟩, ⟨true, false, ids, some now2, none, some status⟩)
      | .exception m =>
        let error := "x.ai models sync error: " ++ m
        ({ cache with lastError := error, lastStatus := 0 },
         ⟨false, false, cache.ids,
          (if cache.updatedAt = 0 then none else some cache.updatedAt),
          some error, none⟩)

theorem jsStartsWith_append_of_prefix {a p : String} (b : String)
    (h : jsStartsWith a p = true) (hlen : p.data.length ≤ a.data.length) :
    jsStartsWith (a ++ b) p = true := by
  unfold jsStartsWith at h ⊢
  rw [String.data_append, List.take_append_eq_append_take]
  have h0 : p.data.length - a.data.length = 0 := by omega
  rw [h0]
  simpa using h

/-- C8 as amended: a sync that fails with a non-2xx listing response, a transport
exception, or a missing API key leaves the cached remote id list unchanged (and the
result still carries the previous ids) while recording error and status diagnostics; the
missing-key case returns the "not configured" failure without consuming the network
outcome at all.  However, a 2xx response whose body fails to parse (or carries no `data`
array) is treated as a successful sync with an empty id list, replacing the cached ids. -/
theorem catalog_sync_failure_preserves (cache : XaiModelCacheState) (key : String)
    (ttl : Option Nat) (force : Bool) (now now2 : Nat) :
    ((jsTrim key == "") = true →
      (∀ f g, syncXaiModels cache key ttl force now now2 f
          = syncXaiModels cache key ttl force now now2 g)
      ∧ (∀ f, (syncXaiModels cache key ttl force now now2 f).1 = cache
          ∧ (syncXaiModels cache key ttl force now now2 f).2.ok = false
          ∧ (syncXaiModels cache key ttl force now now2 f).2.fromCache = true
          ∧ (syncXaiModels cache key ttl force now now2 f).2.ids = cache.ids
          ∧ (syncXaiModels cache key ttl force now now2 f).2.error
              = some "XAI_API_KEY not configured"))
    ∧ ((jsTrim key == "") = false → force = true → ∀ status text,
        (syncXaiModels cache key ttl force now now2 (.httpError status text)).1.ids
            = cache.ids
        ∧ (syncXaiModels cache key ttl force now now2 (.httpError status text)).2.ok
            = false
        ∧ (syncXaiModels cache key ttl force now now2 (.httpError status text)).2.ids
            = cache.ids
        ∧ (syncXaiModels cache key ttl force now now2 (.httpError status text)).1.lastStatus
            = status
        ∧ (syncXaiModels cache key ttl force now now2 (.httpError status text)).2.status
            = some status
        ∧ jsStartsWith
            (syncXaiModels cache key ttl force now now2 (.httpError status text)).1.lastError
            "x.ai models sync failed" = true)
    ∧ ((jsTrim key == "") = false → force = true → ∀ m,
        (syncXaiModels cache key ttl force now now2 (.exception m)).1.ids = cache.ids
        ∧ (syncXaiModels cache key ttl force now now2 (.exception m)).2.ok = false
        ∧ (syncXaiModels cache key ttl force now now2 (.exception m)).2.ids = cache.ids
        ∧ (syncXaiModels cache key ttl force now now2 (.exception m)).1.lastStatus = 0
        ∧ jsStartsWith
            (syncXaiModels cache key ttl force now now2 (.exception m)).1.lastError
            "x.ai models sync error" = true)
    ∧ ((jsTrim key == "") = false → force = true → ∀ status,
        (syncXaiModels cache key ttl force now now2 (.okPayload status none)).2.ok = true
        ∧ (syncXaiModels cache key ttl force now now2 (.okPayload status none)).1.ids
            = []) := by
  refine ⟨?_, ?_, ?_, ?_⟩
  · intro hk
    constructor
    · intro f g
      simp only [syncXaiModels, hk, if_true]
    · intro f
      simp only [syncXaiModels, hk, if_true]
      exact ⟨trivial, trivial, trivial, trivial, trivial⟩
  · intro hk hf status text
    have hguard : (!force && decide (cache.ids.length > 0) && decide (cache.updatedAt > 0)
        && decide (now - cache.updatedAt < parseTtlMs ttl)) = false := by
      rw [hf]
      rfl
    simp only [syncXaiModels, hk, Bool.false_eq_true, if_false, hguard]
    refine ⟨trivial, trivial, trivial, trivial, trivial, ?_⟩
    have hstep : jsStartsWith ("x.ai models sync failed: HTTP " ++ toString status)
        "x.ai models sync failed" = true := by
      refine jsStartsWith_append_of_prefix _ (by decide) (by decide)
    refine jsStartsWith_append_of_prefix _ hstep ?_
    rw [String.data_append, List.length_append]
    have hlen : ("x.ai models sync failed" : String).data.length = 23 := by decide
    have hlen2 : ("x.ai models sync failed: HTTP " : String).data.length = 30 := by decide
    omega
  · intro hk hf m
    have hguard : (!force && decide (cache.ids.length > 0) && decide (cache.updatedAt > 0)
        && decide (now - cache.updatedAt < parseTtlMs ttl)) = false := by
      rw [hf]
      rfl
    simp only [syncXaiModels, hk, Bool.false_eq_true, if_false, hguard]
    refine ⟨trivial, trivial, trivial, trivial, ?_⟩
    refine jsStartsWith_append_of_prefix _ (by decide) (by decide)
  · intro hk hf status
    have hguard : (!force && decide (cache.ids.length > 0) && decide (cache.updatedAt > 0)
        && decide (now - cache.updatedAt < parseTtlMs ttl)) = false := by
      rw [hf]
      rfl
    simp only [syncXaiModels, hk, Bool.false_eq_true, if_false, hguard]
    exact ⟨trivial, by decide⟩

/-- Witness instantiating `catalog_sync_failure_preserves` at a concrete cache. -/
theorem catalog_sync_failure_preserves_witness :
    (syncXaiModels ⟨["xai-a"], 100, "", 200⟩ "" none false 1000 1001
        (.httpError 500 "boom")).2.error = some "XAI_API_KEY not configured"
    ∧ (syncXaiModels ⟨["xai-a"], 100, "", 200⟩ "key" none true 1000 1001
        (.httpError 500 "boom")).1.ids = ["xai-a"]
    ∧ (syncXaiModels ⟨["xai-a"], 100, "", 200⟩ "key" none true 1000 1001
        (.exception "connect reset")).1.ids = ["xai-a"]
    ∧ (syncXaiModels ⟨["xai-a"], 100, "", 200⟩ "key" none true 1000 1001
        (.okPayload 200 none)).1.ids = [] :=
  ⟨(((catalog_sync_failure_preserves ⟨["xai-a"], 100, "", 200⟩ "" none false 1000
        1001).1 (by decide)).2 (.httpError 500 "boom")).2.2.2.2,
    ((catalog_sync_failure_preserves ⟨["xai-a"], 100, "", 200⟩ "key" none true 1000
        1001).2.1 (by decide) rfl 500 "boom").1,
    ((catalog_sync_failure_preserves ⟨["xai-a"], 100, "", 200⟩ "key" none true 1000
        1001).2.2.1 (by decide) rfl "connect reset").1,
    ((catalog_sync_failure_preserves ⟨["xai-a"], 100, "", 200⟩ "key" none true 1000
        1001).2.2.2 (by decide) rfl 200).2⟩

/-- C8 counterexample: a 2xx listing response with a malformed body is treated as a
successful sync and replaces the previously cached non-empty id list with the empty
list, instead of preserving it as a recoverable failure. -/
theorem catalog_sync_malformed_counterexample :
    (syncXaiModels ⟨["xai-model-a"], 100, "", 200⟩ "key" none true 1000 1001
        (.okPayload 200 none)).2.ok = true
    ∧ (syncXaiModels ⟨["xai-model-a"], 100, "", 200⟩ "key" none true 1000 1001
        (.okPayload 200 none)).1.ids = []
    ∧ (⟨["xai-model-a"], 100, "", 200⟩ : XaiModelCacheState).ids ≠ [] := by
  refine ⟨by decide, by decide, by decide⟩

/-! ## src/grok/chat.ts — streamChat entry point (extractMessages and dispatch) -/

/-- One element of an array-valued OpenAI message `content` field: a text part, an
image-url part, or anything else (ignored by `extractMessages`). -/
inductive ContentPart where
  | text (t : String)
  | imageUrl (u : String)
  | other
deriving Repr, DecidableEq

/-- The `content` field of an inbound message: a plain string, an array of parts, or
absent / some other shape (neither string nor array). -/
inductive MsgContent where
  | str (s : String)
  | parts (l : List ContentPart)
  | absent
deriving Repr, DecidableEq

/-- An inbound OpenAI-format chat message. -/
structure ChatMessage where
  role : String
  content : MsgContent
deriving Repr, DecidableEq

/-- The `content` accumulator of `extractMessages` for one message: the string content
itself, or the concatenation of the non-empty text parts (a falsy `item.text` is
skipped), or `""` when `content` is neither a string nor an array. -/
def messageContentText (m : ChatMessage) : String :=
  match m.content with
  | MsgContent.str s => s
  | MsgContent.parts l =>
      l.foldl (fun acc p =>
        match p with
        | ContentPart.text t => if t == "" then acc else acc ++ t
        | _ => acc) ""
  | MsgContent.absent => ""

/-- The entry one message contributes to the `texts` array of `extractMessages`: skipped
when the accumulated content trims to empty, otherwise tagged by role (`msg.role || "user"`
falls into the untagged branch exactly when the raw role is neither `"system"` nor
`"assistant"`). -/
def messageEntry (m : ChatMessage) : Option String :=
  if jsTrim (messageContentText m) == "" then none
  else if m.role == "system" then some ("[System]: " ++ messageContentText m)
  else if m.role == "assistant" then some ("[Assistant]: " ++ messageContentText m)
  else some (messageContentText m)

/-- The `text` component of `extractMessages` (the `imageUrls` component is not consulted
by the empty-text guard and is not modelled): the non-empty entries joined by blank
lines. -/
def extractMessagesText (messages : List ChatMessage) : String :=
  jsJoin "\n\n" (messages.filterMap messageEntry)

/-- A `ChatUpdate` event as produced on the guard path of `streamChat`. -/
inductive ChatUpdateE where
  | token (content : String)
  | error (message : String)
  | done
deriving Repr, DecidableEq

/-- Where `streamChat` sends the request: resolved locally with the given events, or
delegated to the image-generation, one-click-video, or text-chat generator (each of which
performs upstream I/O). -/
inductive ChatDispatch where
  | events (evs : List ChatUpdateE)
  | imageGeneration (text ar : String)
  | oneClickVideo (text ar : String)
  | textChat (text modelId : String)
deriving Repr, DecidableEq

/-- The dispatch structure of `streamChat` from src/grok/chat.ts: extract the text, guard
on it trimming empty, then route by model family. -/
def streamChat (messages : List ChatMessage) (modelId : String) : ChatDispatch :=
  if jsTrim (extractMessagesText messages) == "" then
    ChatDispatch.events [ChatUpdateE.error "Empty message"]
  else if isImageModel modelId then
    ChatDispatch.imageGeneration (extractMessagesText messages) (parseModelWithRatio modelId).2
  else if isVideoModel modelId then
    ChatDispatch.oneClickVideo (extractMessagesText messages) (parseModelWithRatio modelId).2
  else
    ChatDispatch.textChat (extractMessagesText messages) modelId

/-- C10: for every messages array whose extracted text trims to empty — in particular
whenever every message's accumulated content trims to empty, e.g. all contents are empty
or whitespace-only with no non-empty text parts — `streamChat` resolves locally to the
single event `error "Empty message"` and dispatches to no model path (so no upstream
request is issued), for every model id including image and video models. -/
theorem empty_message_guard (messages : List ChatMessage) (modelId : String) :
    ((jsTrim (extractMessagesText messages) == "") = true →
      streamChat messages modelId = ChatDispatch.events [ChatUpdateE.error "Empty message"])
    ∧ ((∀ m ∈ messages, (jsTrim (messageContentText m) == "") = true) →
      streamChat messages modelId
        = ChatDispatch.events [ChatUpdateE.error "Empty message"]) := by
  constructor
  · intro h
    simp only [streamChat, h, if_pos]
  · intro h
    have hentries : messages.filterMap messageEntry = [] := by
      rw [List.filterMap_eq_nil_iff]
      intro m hm
      simp only [messageEntry, h m hm, if_pos]
    have htext : extractMessagesText messages = "" := by
      rw [extractMessagesText, hentries]
      rfl
    simp only [streamChat, htext]
    rw [if_pos (by decide)]

/-- Concrete all-whitespace messages: a whitespace string content, a parts array with an
image-url part, an empty text part and an unrecognized part, and an absent content. -/
def emptyMessagesDemo : List ChatMessage :=
  [⟨"user", MsgContent.str "   "⟩,
   ⟨"system", MsgContent.parts
      [ContentPart.imageUrl "https://h/p.png", ContentPart.text "", ContentPart.other]⟩,
   ⟨"assistant", MsgContent.absent⟩]

theorem empty_message_guard_witness :
    ((jsTrim (extractMessagesText emptyMessagesDemo) == "") = true →
      streamChat emptyMessagesDemo "grok-image"
        = ChatDispatch.events [ChatUpdateE.error "Empty message"])
    ∧ ((jsTrim (extractMessagesText emptyMessagesDemo) == "") = true
      ∧ streamChat emptyMessagesDemo "grok-image"
          = ChatDispatch.events [ChatUpdateE.error "Empty message"]
      ∧ streamChat emptyMessagesDemo "grok-video-16_9"
          = ChatDispatch.events [ChatUpdateE.error "Empty message"]) :=
  ⟨(empty_message_guard emptyMessagesDemo "grok-image").1,
   by decide,
   (empty_message_guard emptyMessagesDemo "grok-image").2 (by decide),
   (empty_message_guard emptyMessagesDemo "grok-video-16_9").2 (by decide)⟩

/-! ## src/routes/v1/chat.ts — chat-completion retry loops, and the upstream error
classification of streamTextChat they react to -/

def MAX_RETRIES : Nat := 5

/-- The retryable-error test applied to an error event's message in both retry loops:
`msg.includes("429") || msg.includes("rate") || msg.includes("401")`. -/
def retryableMsg (msg : String) : Bool :=
  jsIncludes msg "429" || jsIncludes msg "rate" || jsIncludes msg "401"

/-- The retryable test applied to a thrown exception's message in both `catch` blocks:
only `"429"` and `"rate"` (no `"401"`). -/
def retryableExn (msg : String) : Bool :=
  jsIncludes msg "429" || jsIncludes msg "rate"

/-- The challenge message yielded by `streamTextChat` on a 403 whose body matches the
anti-bot heuristics. -/
def cloudflareChallengeMessage : String :=
  "Upstream 403 (Cloudflare challenge). 请检查 token 的 cf_clearance/user_id 是否有效，且与当前服务器出口环境匹配。"

/-- The message yielded by `streamTextChat` on a plain 403. -/
def forbidden403Message : String :=
  "Upstream 403 forbidden. 请检查 token 是否失效或被风控。"

/-- The anti-bot-challenge body heuristics of `streamTextChat`: case-insensitive
substring tests on the upstream response body. -/
def isChallengeBody (errorText : String) : Bool :=
  jsIncludes (jsToLower errorText) "cloudflare"
  || jsIncludes (jsToLower errorText) "attention required"
  || jsIncludes (jsToLower errorText) "just a moment"
  || jsIncludes (jsToLower errorText) "<!doctype html"

/-- The error-event message `streamTextChat` yields for a non-ok upstream response of the
given status and body text. -/
def httpErrorMessage (status : Nat) (errorText : String) : String :=
  if status == 403 && isChallengeBody errorText then cloudflareChallengeMessage
  else if status == 403 then forbidden403Message
  else "HTTP " ++ toString status ++ ": " ++ jsTake errorText 500

/-- The observable outcome of one `streamChat` attempt as seen by the route's per-token
loop body: an error event with the given message, a thrown exception with the given
message, or a completed stream (`done`). -/
inductive AttemptOutcome where
  | errEvent (msg : String)
  | thrown (msg : String)
  | okDone
deriving Repr, DecidableEq

/-- `getRandomToken(db, excludedTokenIds)` picks uniformly at random among the active
credentials not in the exclusion list and returns null when that set is empty; the claims
depend only on whether the set is empty, so the model deterministically picks its first
element. -/
def pickToken (pool excluded : List String) : Option String :=
  (pool.filter (fun t => !(excluded.contains t))).head?

/-- Outcome of the non-streaming route handler: the 503 no-tokens response, the 429
all-rate-limited response, a terminal 500 error response carrying the message unchanged,
the success response, the 429 failed-after-retries response emitted when the while
condition fails, or `pending` when the scripted outcomes end before the loop settles. -/
inductive NonStreamResult where
  | noTokens
  | allRateLimited (tried : Nat)
  | httpError (msg : String)
  | success
  | failedAfterRetries (lastError : String)
  | pending
deriving Repr, DecidableEq

/-- The non-streaming retry loop of `app.post("/completions")`, driven by a script
assigning each attempt its outcome; the second component counts the picks — the
`getRandomToken` calls that returned a credential.  A retryable error event or exception
pushes the token onto `excludedTokenIds`, increments `retryCount`, records `lastError`
and loops; a non-retryable one returns a 500 with the message unchanged; exiting the
while loop returns `lastError || "Failed after retries"` with status 429. -/
def nonStreamLoop (pool : List String) (script : List AttemptOutcome)
    (excluded : List String) (retryCount : Nat) (lastError : String) :
    NonStreamResult × Nat :=
  match script with
  | [] =>
      if MAX_RETRIES ≤ retryCount then
        (NonStreamResult.failedAfterRetries
          (if lastError == "" then "Failed after retries" else lastError), 0)
      else
        match pickToken pool excluded with
        | none =>
            (if 0 < excluded.length then NonStreamResult.allRateLimited excluded.length
             else NonStreamResult.noTokens, 0)
        | some _ => (NonStreamResult.pending, 0)
  | o :: rest =>
      if MAX_RETRIES ≤ retryCount then
        (NonStreamResult.failedAfterRetries
          (if lastError == "" then "Failed after retries" else lastError), 0)
      else
        match pickToken pool excluded with
        | none =>
            (if 0 < excluded.length then NonStreamResult.allRateLimited excluded.length
             else NonStreamResult.noTokens, 0)
        | some tok =>
            match o with
            | AttemptOutcome.okDone => (NonStreamResult.success, 1)
            | AttemptOutcome.errEvent msg =>
                if retryableMsg msg then
                  ((nonStreamLoop pool rest (excluded ++ [tok]) (retryCount + 1) msg).1,
                   (nonStreamLoop pool rest (excluded ++ [tok]) (retryCount + 1) msg).2 + 1)
                else (NonStreamResult.httpError msg, 1)
            | AttemptOutcome.thrown msg =>
                if retryableExn msg then
                  ((nonStreamLoop pool rest (excluded ++ [tok]) (retryCount + 1) msg).1,
                   (nonStreamLoop pool rest (excluded ++ [tok]) (retryCount + 1) msg).2 + 1)
                else (NonStreamResult.httpError msg, 1)

/-- Trace of the streaming route handler's retry loop: the delta contents enqueued inside
the loop, and the number of picks (`getRandomToken` calls that returned a credential). -/
structure StreamRun where
  chunks : List String
  picks : Nat
deriving Repr, DecidableEq

/-- The streaming retry loop of `app.post("/completions")`.  The no-token and retryable
paths mirror the non-streaming loop; but on a non-retryable error event the handler
enqueues `[Error: msg]` and executes a `break` that exits only the inner `for await`
loop, so the `while` loop re-runs with `excludedTokenIds` and `retryCount` unchanged
(only a non-retryable thrown exception breaks the while loop itself). -/
def streamLoop (pool : List String) (script : List AttemptOutcome)
    (excluded : List String) (retryCount : Nat) : StreamRun :=
  match script with
  | [] =>
      if MAX_RETRIES ≤ retryCount then ⟨[], 0⟩
      else
        match pickToken pool excluded with
        | none =>
            ⟨[if 0 < excluded.length then "[Error: All tokens rate limited]"
              else "[Error: No available tokens]"], 0⟩
        | some _ => ⟨[], 0⟩
  | o :: rest =>
      if MAX_RETRIES ≤ retryCount then ⟨[], 0⟩
      else
        match pickToken pool excluded with
        | none =>
            ⟨[if 0 < excluded.length then "[Error: All tokens rate limited]"
              else "[Error: No available tokens]"], 0⟩
        | some tok =>
            match o with
            | AttemptOutcome.okDone => ⟨[], 1⟩
            | AttemptOutcome.errEvent msg =>
                if retryableMsg msg then
                  ⟨(streamLoop pool rest (excluded ++ [tok]) (retryCount + 1)).chunks,
                   (streamLoop pool rest (excluded ++ [tok]) (retryCount + 1)).picks + 1⟩
                else
                  ⟨("[Error: " ++ msg ++ "]")
                      :: (streamLoop pool rest excluded retryCount).chunks,
                   (streamLoop pool rest excluded retryCount).picks + 1⟩
            | AttemptOutcome.thrown msg =>
                if retryableExn msg then
                  ⟨(streamLoop pool rest (excluded ++ [tok]) (retryCount + 1)).chunks,
                   (streamLoop pool rest (excluded ++ [tok]) (retryCount + 1)).picks + 1⟩
                else ⟨["[Error: " ++ msg ++ "]"], 1⟩

theorem nonStreamLoop_picks_le (pool : List String) (script : List AttemptOutcome) :
    ∀ excluded retryCount lastError,
      (nonStreamLoop pool script excluded retryCount lastError).2
        ≤ MAX_RETRIES - retryCount := by
  induction script with
  | nil =>
    intro excluded rc lastError
    simp only [nonStreamLoop]
    split
    · simp
    · split <;> simp
  | cons o rest ih =>
    intro excluded rc lastError
    simp only [nonStreamLoop]
    split
    · simp
    · next hrc =>
      have hrc5 : rc < 5 := by
        simp only [MAX_RETRIES] at hrc
        omega
      split
      · simp
      · next tok heq =>
        cases o with
        | okDone =>
          simp only [MAX_RETRIES]
          omega
        | errEvent msg =>
          dsimp only
          by_cases hm : retryableMsg msg = true
          · rw [if_pos hm]
            have h2 := ih (excluded ++ [tok]) (rc + 1) msg
            simp only [MAX_RETRIES] at h2 ⊢
            omega
          · rw [if_neg hm]
            simp only [MAX_RETRIES]
            omega
        | thrown msg =>
          dsimp only
          by_cases hm : retryableExn msg = true
          · rw [if_pos hm]
            have h2 := ih (excluded ++ [tok]) (rc + 1) msg
            simp only [MAX_RETRIES] at h2 ⊢
            omega
          · rw [if_neg hm]
            simp only [MAX_RETRIES]
            omega

/-- C1: the non-streaming retry loop performs at most `MAX_RETRIES = 5` credential
picks (in general, at most `MAX_RETRIES - retryCount` more picks from any loop state),
and exhausting credentials reports "No available tokens" with an empty exclusion set and
"All tokens rate limited" with a non-empty one — in both loops.  The streaming loop,
however, does not obey the bound: on a non-retryable error event its `break` leaves only
the inner event loop, so six consecutive terminal "Empty message" attempts with a
one-credential pool cause six picks (six upstream attempts, one per scripted outcome,
with the loop still running) and six error chunks, while the non-streaming loop stops at
one pick and surfaces the error. -/
theorem retry_bound_divergence :
    (∀ pool script excluded retryCount lastError,
        (nonStreamLoop pool script excluded retryCount lastError).2
          ≤ MAX_RETRIES - retryCount)
    ∧ MAX_RETRIES < (streamLoop ["t1"]
        (List.replicate 6 (AttemptOutcome.errEvent "Empty message")) [] 0).picks
    ∧ (streamLoop ["t1"] (List.replicate 6 (AttemptOutcome.errEvent "Empty message"))
        [] 0).chunks = List.replicate 6 "[Error: Empty message]"
    ∧ nonStreamLoop ["t1"] (List.replicate 6 (AttemptOutcome.errEvent "Empty message"))
        [] 0 "" = (NonStreamResult.httpError "Empty message", 1)
    ∧ (∀ pool script excluded retryCount,
        retryCount < MAX_RETRIES → pickToken pool excluded = none →
        (streamLoop pool script excluded retryCount).chunks
          = [if 0 < excluded.length then "[Error: All tokens rate limited]"
             else "[Error: No available tokens]"]
        ∧ (nonStreamLoop pool script excluded retryCount "").1
          = (if 0 < excluded.length then NonStreamResult.allRateLimited excluded.length
             else NonStreamResult.noTokens)) := by
  refine ⟨fun pool script => nonStreamLoop_picks_le pool script, by decide, by decide,
    by decide, ?_⟩
  intro pool script excluded rc hrc hpick
  have hrc' : ¬ MAX_RETRIES ≤ rc := by omega
  cases script with
  | nil =>
    constructor
    · simp only [streamLoop]
      rw [if_neg hrc', hpick]
    · simp only [nonStreamLoop]
      rw [if_neg hrc', hpick]
  | cons o rest =>
    constructor
    · simp only [streamLoop]
      rw [if_neg hrc', hpick]
    · simp only [nonStreamLoop]
      rw [if_neg hrc', hpick]

theorem retry_bound_divergence_witness :
    (nonStreamLoop ["t1"] (List.replicate 9 (AttemptOutcome.errEvent "429")) [] 0 "").2
        ≤ MAX_RETRIES - 0
    ∧ ((streamLoop ([] : List String) ([] : List AttemptOutcome) [] 0).chunks
        = [if 0 < ([] : List String).length then "[Error: All tokens rate limited]"
           else "[Error: No available tokens]"]
      ∧ (nonStreamLoop ([] : List String) ([] : List AttemptOutcome) [] 0 "").1
        = (if 0 < ([] : List String).length
           then NonStreamResult.allRateLimited ([] : List String).length
           else NonStreamResult.noTokens)) :=
  ⟨retry_bound_divergence.1 ["t1"] (List.replicate 9 (AttemptOutcome.errEvent "429"))
      [] 0 "",
   retry_bound_divergence.2.2.2.2 [] [] [] 0 (by decide) (by decide)⟩

/-- C2 counterexample: a 403 whose body matches the challenge heuristics does yield the
distinct challenge message, but that message contains none of the substrings "429",
"rate", "401", so both retry loops treat it as terminal — the non-streaming loop returns
it as a 500 after a single pick and the streaming loop surfaces it as an error chunk —
instead of excluding the credential and retrying with the second available one. -/
theorem challenge_terminal_counterexample :
    isChallengeBody "<html><title>Just a moment...</title></html>" = true
    ∧ httpErrorMessage 403 "<html><title>Just a moment...</title></html>"
        = cloudflareChallengeMessage
    ∧ retryableMsg cloudflareChallengeMessage = false
    ∧ nonStreamLoop ["t1", "t2"] [AttemptOutcome.errEvent cloudflareChallengeMessage]
        [] 0 ""
        = (NonStreamResult.httpError cloudflareChallengeMessage, 1)
    ∧ (streamLoop ["t1", "t2"] [AttemptOutcome.errEvent cloudflareChallengeMessage]
        [] 0).chunks
        = ["[Error: " ++ cloudflareChallengeMessage ++ "]"] := by
  refine ⟨by decide, by decide, by decide, by decide, by decide⟩

/-- C2 as amended: a 403 upstream response whose body matches the case-insensitive
anti-bot heuristics yields the distinct challenge message (and any non-403 status yields
the generic "HTTP ..." message, which the challenge message is not); the retry loops
classify an error event as retryable exactly when its message contains "429", "rate" or
"401" (a thrown exception: "429" or "rate" only) — a retryable outcome excludes the
credential, increments the retry counter, records the message and continues, while every
other error-event message is terminal and surfaced unchanged.  The challenge message
contains none of those substrings, so — contrary to the claim — a challenge error is
terminal, not retried. -/
theorem error_classification (status : Nat) (body msg lastError : String)
    (pool excluded : List String) (script : List AttemptOutcome) (rc : Nat)
    (tok : String) :
    (isChallengeBody body = true →
        httpErrorMessage 403 body = cloudflareChallengeMessage)
    ∧ ((status == 403) = false →
        jsStartsWith (httpErrorMessage status body) "HTTP " = true)
    ∧ jsStartsWith cloudflareChallengeMessage "HTTP " = false
    ∧ retryableMsg cloudflareChallengeMessage = false
    ∧ retryableMsg forbidden403Message = false
    ∧ (rc < MAX_RETRIES → pickToken pool excluded = some tok →
        retryableMsg msg = false →
        nonStreamLoop pool (AttemptOutcome.errEvent msg :: script) excluded rc lastError
          = (NonStreamResult.httpError msg, 1))
    ∧ (rc < MAX_RETRIES → pickToken pool excluded = some tok →
        retryableMsg msg = true →
        nonStreamLoop pool (AttemptOutcome.errEvent msg :: script) excluded rc lastError
          = ((nonStreamLoop pool script (excluded ++ [tok]) (rc + 1) msg).1,
             (nonStreamLoop pool script (excluded ++ [tok]) (rc + 1) msg).2 + 1))
    ∧ (rc < MAX_RETRIES → pickToken pool excluded = some tok →
        retryableExn msg = false →
        nonStreamLoop pool (AttemptOutcome.thrown msg :: script) excluded rc lastError
          = (NonStreamResult.httpError msg, 1)) := by
  refine ⟨?_, ?_, by decide, by decide, by decide, ?_, ?_, ?_⟩
  · intro h
    simp [httpErrorMessage, h]
  · intro h
    simp only [httpErrorMessage]
    rw [if_neg (by simp [h]), if_neg (by simp [h])]
    have h1 : jsStartsWith ("HTTP " ++ toString status) "HTTP " = true :=
      jsStartsWith_append_of_prefix _ (by decide) (by decide)
    have hlen1 : "HTTP ".data.length ≤ ("HTTP " ++ toString status).data.length := by
      rw [String.data_append, List.length_append]
      omega
    have h2 : jsStartsWith ("HTTP " ++ toString status ++ ": ") "HTTP " = true :=
      jsStartsWith_append_of_prefix _ h1 hlen1
    have hlen2 : "HTTP ".data.length
        ≤ ("HTTP " ++ toString status ++ ": ").data.length := by
      rw [String.data_append, List.length_append]
      have h5 : "HTTP ".data.length ≤ ("HTTP " ++ toString status).data.length := hlen1
      omega
    exact jsStartsWith_append_of_prefix _ h2 hlen2
  · intro hrc hpick hm
    have hrc' : ¬ MAX_RETRIES ≤ rc := by omega
    simp only [nonStreamLoop]
    rw [if_neg hrc', hpick]
    simp [hm]
  · intro hrc hpick hm
    have hrc' : ¬ MAX_RETRIES ≤ rc := by omega
    simp only [nonStreamLoop]
    rw [if_neg hrc', hpick]
    simp [hm]
  · intro hrc hpick hm
    have hrc' : ¬ MAX_RETRIES ≤ rc := by omega
    simp only [nonStreamLoop]
    rw [if_neg hrc', hpick]
    simp [hm]

theorem error_classification_witness :
    httpErrorMessage 403 "Just a MOMENT" = cloudflareChallengeMessage
    ∧ jsStartsWith (httpErrorMessage 500 "boom") "HTTP " = true
    ∧ nonStreamLoop ["t1"] [AttemptOutcome.errEvent "No response body"] [] 0 ""
        = (NonStreamResult.httpError "No response body", 1)
    ∧ nonStreamLoop ["t1", "t2"] [AttemptOutcome.errEvent "HTTP 429: slow down"] [] 0 ""
        = ((nonStreamLoop ["t1", "t2"] [] ["t1"] 1 "HTTP 429: slow down").1,
           (nonStreamLoop ["t1", "t2"] [] ["t1"] 1 "HTTP 429: slow down").2 + 1)
    ∧ nonStreamLoop ["t1"] [AttemptOutcome.thrown "kaboom"] [] 0 ""
        = (NonStreamResult.httpError "kaboom", 1) :=
  ⟨(error_classification 403 "Just a MOMENT" "" "" [] [] [] 0 "").1 (by decide),
   (error_classification 500 "boom" "" "" [] [] [] 0 "").2.1 (by decide),
   (error_classification 0 "" "No response body" "" ["t1"] [] [] 0
      "t1").2.2.2.2.2.1 (by decide) (by decide) (by decide),
   (error_classification 0 "" "HTTP 429: slow down" "" ["t1", "t2"] [] [] 0
      "t1").2.2.2.2.2.2.1 (by decide) (by decide) (by decide),
   (error_classification 0 "" "kaboom" "" ["t1"] [] [] 0
      "t1").2.2.2.2.2.2.2 (by decide) (by decide) (by decide)⟩

end GrokProxy
